import Mathlib

/-!
Shallow embedding of `.github/scripts/rbac-analyzer.py` (class `RBACAnalyzer`):
the manifest loader, the binding-scope query, the dangerous-permission
evaluator, the privilege-chain walker and the reporter, together with proofs
about the behaviours the specification ascribes to them.

Modelling conventions:
* Python dicts coming from parsed YAML are modelled as structures whose
  fields are `Option`-valued exactly where the code accesses them with
  `.get` (a missing key yields the default); a bare `d['k']` subscript is
  modelled as a partial access that produces an `Except` error (Python
  raises `KeyError`), since such an exception escapes the analysis methods.
* Accumulation of `self.findings` is modelled functionally: each analysis
  pass returns the list of findings it appends, in order.  A pass that can
  raise returns the findings appended before the exception together with an
  `Option String` error.
* `print` output matters only for the final report; it is modelled as a
  list of output events, where the confidential attack-scenario prose
  (static catalog text, lines 1-504 of the script) is one event carrying
  the scenario key.
* Severities are the literal Python strings "CRITICAL" / "HIGH" /
  "WARNING" / "INFO".
-/

namespace RBAC

/-- The `metadata` mapping of a manifest document; both keys are optional. -/
structure Metadata where
  name : Option String
  namespace_ : Option String
deriving Repr, DecidableEq

/-- The `roleRef` mapping of a binding document. -/
structure RoleRef where
  kind : Option String
  name : Option String
deriving Repr, DecidableEq

/-- One entry of a binding's `subjects` list. -/
structure Subject where
  kind : Option String
  namespace_ : Option String
  name : Option String
deriving Repr, DecidableEq

/-- One entry of a role's `rules` list (the fields the analyzer reads). -/
structure Rule where
  resources : List String
  verbs : List String
deriving Repr, DecidableEq

/-- A (Cluster)RoleBinding document: the fields the analyzer accesses.
`metadata` is `Option` because the code subscripts `doc['metadata']['name']`,
which raises `KeyError` when the key is absent. -/
structure BindingDoc where
  metadata : Option Metadata
  roleRef : Option RoleRef
  subjects : List Subject
deriving Repr, DecidableEq

/-- An element of `self.cluster_role_bindings` / `self.role_bindings`:
the document plus the source file it came from. -/
structure Binding where
  doc : BindingDoc
  file : String
deriving Repr, DecidableEq

/-- A value of `self.cluster_roles[name]`: rules, source file, and the
`aggregationRule.clusterRoleSelectors` content when the key is present
(selector dictionaries abstracted to their rendered strings).  `rules` is
the stored `doc.get('rules', [])`: `none` models a present-but-null
`rules:` key (Python `None`), over which the rule loop of
`analyze_dangerous_permissions` raises an uncaught `TypeError`. -/
structure RoleData where
  rules : Option (List Rule)
  file : String
  aggregationSelectors : Option (List String)
deriving Repr, DecidableEq

/-- A value of `self.pods[key]`. -/
structure PodInfo where
  serviceAccount : String
  file : String
  automountToken : Bool
deriving Repr, DecidableEq

/-- A finding dict appended by `_add_finding`. -/
structure Finding where
  severity : String
  title : String
  description : String
  file : String
  remediation : String
  attack_scenarios : List String
deriving Repr, DecidableEq

/-- The analyzer instance's collections (`__init__`), findings excluded
(they are threaded functionally). Dicts are insertion-ordered key/value
lists, as in Python 3.7+. -/
structure AnalyzerState where
  cluster_roles : List (String × RoleData)
  roles : List (String × RoleData)
  cluster_role_bindings : List Binding
  role_bindings : List Binding
  service_accounts : List (String × String)
  pods : List (String × PodInfo)
deriving Repr, DecidableEq

/-- The empty analyzer state (`RBACAnalyzer.__init__`). -/
def initState : AnalyzerState :=
  { cluster_roles := [], roles := [], cluster_role_bindings := []
    role_bindings := [], service_accounts := [], pods := [] }

/-- Python `f"{x}"` applied to a value that may be `None`. -/
def pyStr : Option String → String
  | none => "None"
  | some s => s

/-- Model of `binding['doc'].get('roleRef', {}).get('name')`. -/
def roleRefName (d : BindingDoc) : Option String :=
  d.roleRef.bind RoleRef.name

/-- Model of `binding['doc'].get('roleRef', {}).get('kind')`. -/
def roleRefKind (d : BindingDoc) : Option String :=
  d.roleRef.bind RoleRef.kind

/-- Model of `doc['metadata']['name']`: raises `KeyError` when `metadata` or its
`name` key is missing. -/
def metadataName (d : BindingDoc) : Except String String :=
  match d.metadata with
  | none => .error "KeyError: 'metadata'"
  | some m =>
    match m.name with
    | none => .error "KeyError: 'name'"
    | some n => .ok n

/-! ## Manifest loader (`load_yaml_files`, `_preprocess_template`,
`_categorize_resource`) -/

/-- The excluded path segments of `load_yaml_files` (lines 528-530). -/
def excluded_dirs : List String :=
  [".git", "vendor", "node_modules", "test", "tests", "testdata",
   "examples", "docs", "bin", ".github"]

/-- Model of `any(x in path_parts for x in [...])`: a file is skipped iff one of its
whole path segments equals an excluded name. -/
def isExcludedPath (path_parts : List String) : Bool :=
  excluded_dirs.any (fun x => path_parts.contains x)

/-- Substring test (Python `needle in hay`). -/
def strContainsAux (needle : List Char) : List Char → Bool
  | [] => needle.isEmpty
  | c :: rest => needle.isPrefixOf (c :: rest) || strContainsAux needle rest

/-- Python `needle in hay` on strings. -/
def strContains (hay needle : String) : Bool :=
  strContainsAux needle.toList hay.toList

/-- Python `str.lower()` (ASCII case folding as used by the analyzer). -/
def pyLower (s : String) : String :=
  String.mk (s.toList.map Char.toLower)

/-- Python `str.replace(pat, sub)`: replace non-overlapping occurrences
left to right. `fuel` bounds the scan (one character per step). -/
def pyReplaceGo (pat sub : List Char) : Nat → List Char → List Char
  | _, [] => []
  | 0, cs => cs
  | fuel + 1, c :: rest =>
    if pat.isPrefixOf (c :: rest) then
      sub ++ pyReplaceGo pat sub fuel (List.drop (pat.length - 1) rest)
    else c :: pyReplaceGo pat sub fuel rest

/-- Python `str.replace` on strings (nonempty pattern). -/
def pyReplace (s pat sub : String) : String :=
  String.mk (pyReplaceGo pat.toList sub.toList s.toList.length s.toList)

/-- Python `str.split(sep)` scan (nonempty separator), fuelled. -/
def pySplitGo (sep : List Char) : Nat → List Char → List (List Char)
  | _, [] => [[]]
  | 0, cs => [cs]
  | fuel + 1, c :: rest =>
    if sep.isPrefixOf (c :: rest) then
      [] :: pySplitGo sep fuel (List.drop (sep.length - 1) rest)
    else
      match pySplitGo sep fuel rest with
      | [] => [[c]]
      | h :: t => (c :: h) :: t

/-- Python `str.split(sep)` on strings (nonempty separator). -/
def pySplitOn (s sep : String) : List String :=
  (pySplitGo sep.toList s.toList.length s.toList).map String.mk

/-- Model of `pod_key.split('/')[0]`: the prefix before the first slash. -/
def splitHeadSlash (s : String) : String :=
  String.mk (s.toList.takeWhile (fun c => c ≠ '/'))

/-- The `\x7b` character. -/
def obr : Char := Char.ofNat 123

/-- The `\x7d` character. -/
def cbr : Char := Char.ofNat 125

/-- Template detection (lines 540-544): filename contains `.tmpl.yaml` or
`.template.yaml`, or the content contains `\x7b\x7b`. -/
def is_template (filename content : String) : Bool :=
  strContains filename ".tmpl.yaml" ||
  strContains filename ".template.yaml" ||
  strContains content (String.mk [obr, obr])

/-- One attempted match of the regex `\x7b\x7b[^\x7d]+\x7d\x7d` at the head
of `cs`: on success, returns the remainder after the matched span.  The
character class excludes `\x7d`, so the (greedy) body is the maximal run of
non-`\x7d` characters, and the match succeeds iff that run is nonempty and
is followed by two `\x7d`. -/
def templateMatch (cs : List Char) : Option (List Char) :=
  match cs with
  | c1 :: c2 :: rest =>
    if c1 = obr && c2 = obr then
      let body := rest.takeWhile (fun c => c ≠ cbr)
      let after := rest.dropWhile (fun c => c ≠ cbr)
      if body.isEmpty then none
      else
        match after with
        | a1 :: a2 :: rest2 =>
          if a1 = cbr && a2 = cbr then some rest2 else none
        | _ => none
    else none
  | _ => none

/-- The `re.sub` scan: at each position try the pattern; replace a match with
the placeholder and continue after it, otherwise keep one character and
move on.  `fuel` bounds the recursion (each step consumes ≥ 1 char). -/
def templateSub : Nat → List Char → List Char
  | 0, cs => cs
  | _ + 1, [] => []
  | fuel + 1, c :: rest =>
    match templateMatch (c :: rest) with
    | some rest2 => "placeholder-value".toList ++ templateSub fuel rest2
    | none => c :: templateSub fuel rest

/-- Model of `_preprocess_template` (lines 516-521):
`re.sub(r'\x7b\x7b[^\x7d]+\x7d\x7d', 'placeholder-value', content)`. -/
def _preprocess_template (content : String) : String :=
  String.mk (templateSub content.toList.length content.toList)

/-- A parsed YAML document, restricted to the keys the analyzer reads.
`kind = none` models a document without a `kind` key (or an empty
document), which `load_yaml_files` skips.  `rules` distinguishes an
absent key (`none`), a present-but-null value (`some none`, Python
`None`) and a list (`some (some l)`). -/
structure YamlDoc where
  kind : Option String
  metadata : Option Metadata
  rules : Option (Option (List Rule))
  roleRef : Option RoleRef
  subjects : List Subject
  specServiceAccountName : Option String
  specAutomountToken : Option Bool
  aggregationSelectors : Option (List String)
deriving Repr, DecidableEq

/-- Python dict insert: overwrite in place on an existing key, else append. -/
def dictInsert {β : Type} (key : String) (val : β) :
    List (String × β) → List (String × β)
  | [] => [(key, val)]
  | (k, v) :: rest =>
    if k = key then (k, val) :: rest else (k, v) :: dictInsert key val rest

/-- The `BindingDoc` view of a full document. -/
def YamlDoc.toBindingDoc (doc : YamlDoc) : BindingDoc :=
  { metadata := doc.metadata, roleRef := doc.roleRef, subjects := doc.subjects }

/-- Model of `_categorize_resource` (lines 560-585). -/
def _categorize_resource (st : AnalyzerState) (doc : YamlDoc)
    (file_path : String) : AnalyzerState :=
  let metadata := doc.metadata.getD { name := none, namespace_ := none }
  let name := metadata.name.getD "unknown"
  match doc.kind with
  | some "ClusterRole" =>
    let rd : RoleData :=
      { rules := doc.rules.getD (some []), file := file_path,
        aggregationSelectors := doc.aggregationSelectors }
    { st with cluster_roles := dictInsert name rd st.cluster_roles }
  | some "Role" =>
    let namespace_ := metadata.namespace_.getD "default"
    let rd : RoleData :=
      { rules := doc.rules.getD (some []), file := file_path,
        aggregationSelectors := doc.aggregationSelectors }
    { st with roles := dictInsert (namespace_ ++ "/" ++ name) rd st.roles }
  | some "ClusterRoleBinding" =>
    let b : Binding := { doc := doc.toBindingDoc, file := file_path }
    { st with cluster_role_bindings := st.cluster_role_bindings ++ [b] }
  | some "RoleBinding" =>
    let b : Binding := { doc := doc.toBindingDoc, file := file_path }
    { st with role_bindings := st.role_bindings ++ [b] }
  | some "ServiceAccount" =>
    let namespace_ := metadata.namespace_.getD "default"
    let key := namespace_ ++ "/" ++ name
    { st with service_accounts := dictInsert key file_path st.service_accounts }
  | some "Pod" =>
    let namespace_ := metadata.namespace_.getD "default"
    let sa_name := doc.specServiceAccountName.getD "default"
    let pi : PodInfo :=
      { serviceAccount := sa_name, file := file_path,
        automountToken := doc.specAutomountToken.getD true }
    { st with pods := dictInsert (namespace_ ++ "/" ++ name) pi st.pods }
  | _ => st

/-- Processing of the documents of one file (lines 550-554): documents
without a `kind` are skipped silently. -/
def categorizeDocs (st : AnalyzerState) (docs : List YamlDoc)
    (file_path : String) : AnalyzerState :=
  docs.foldl (fun s d =>
    if d.kind.isSome then _categorize_resource s d file_path else s) st

/-- Processing of one non-excluded file in `load_yaml_files` (lines
533-558).  The external YAML parser (`yaml.safe_load_all`) is a lazy
generator consumed by the `for doc in docs` loop, so it is passed in as a
function returning the documents it yields before an optional parse
failure: a failing multi-document file still categorizes the documents
yielded before the failure, because `_categorize_resource` already
mutated the collections.  The warning for a failing non-template file is
the only stderr output. -/
def process_yaml_file (parse : String → List YamlDoc × Option String)
    (st : AnalyzerState) (filename content : String) :
    AnalyzerState × List String :=
  let isT := is_template filename content
  let content' := if isT then _preprocess_template content else content
  let parsed := parse content'
  let st' := categorizeDocs st parsed.1 filename
  match parsed.2 with
  | none => (st', [])
  | some e =>
    if isT then (st', [])
    else (st', ["Warning: Failed to parse " ++ filename ++ ": " ++ e])

/-- A file handed to the loader: its path segments and its content. -/
structure ScannedFile where
  parts : List String
  content : String
deriving Repr, DecidableEq

/-- The path string of a scanned file. -/
def ScannedFile.pathStr (f : ScannedFile) : String :=
  String.intercalate "/" f.parts

/-- Model of `load_yaml_files` over an enumerated list of `*.yaml` files: excluded
paths are skipped; every other file is processed, and a failure on one
file never stops the remaining files from being processed. -/
def load_yaml_files (parse : String → List YamlDoc × Option String)
    (st : AnalyzerState) : List ScannedFile → AnalyzerState × List String
  | [] => (st, [])
  | f :: rest =>
    if isExcludedPath f.parts then load_yaml_files parse st rest
    else
      let (st', ws) := process_yaml_file parse st f.pathStr f.content
      let (st'', ws') := load_yaml_files parse st' rest
      (st'', ws ++ ws')

/-! ## Binding-scope query (`get_clusterrole_binding_scope`) -/

/-- The dictionary returned by `get_clusterrole_binding_scope`
(lines 627-634), with the `subject_types` counts flattened. -/
structure BindingScope where
  cluster_wide : Bool
  namespace_scoped : Bool
  unbound : Bool
  cluster_bindings : List String
  role_bindings : List String
  subject_types_ServiceAccount : Nat
  subject_types_Group : Nat
  subject_types_User : Nat
deriving Repr, DecidableEq

/-- A loop of the form
`for binding in bs: if p(binding.doc): out.append(binding.doc['metadata']['name'])`:
collects names in order, raising at the first selected binding whose
metadata name is missing. -/
def collectBindingNames (p : BindingDoc → Bool) :
    List Binding → Except String (List String)
  | [] => .ok []
  | b :: rest =>
    if p b.doc then
      match metadataName b.doc with
      | .error e => .error e
      | .ok n =>
        match collectBindingNames p rest with
        | .error e => .error e
        | .ok ns => .ok (n :: ns)
    else collectBindingNames p rest

/-- Model of `subject.get('kind', '')` bucketed into the three counted kinds
(lines 622-625). -/
def subjectBucket (a : Nat × Nat × Nat) (s : Subject) : Nat × Nat × Nat :=
  match s.kind.getD "" with
  | "ServiceAccount" => (a.1 + 1, a.2.1, a.2.2)
  | "Group" => (a.1, a.2.1 + 1, a.2.2)
  | "User" => (a.1, a.2.1, a.2.2 + 1)
  | _ => a

/-- The `subject_types` counting loop (lines 617-625): every binding whose
`roleRef.name` equals `role_name` — the `kind` of the roleRef is NOT
consulted — contributes its subjects, bucketed by subject kind. -/
def subjectTypeCounts (bindings : List Binding) (role_name : String) :
    Nat × Nat × Nat :=
  bindings.foldl
    (fun (acc : Nat × Nat × Nat) b =>
      if roleRefName b.doc == some role_name then
        b.doc.subjects.foldl subjectBucket acc
      else acc)
    (0, 0, 0)

/-- Model of `get_clusterrole_binding_scope` (lines 587-634). -/
def get_clusterrole_binding_scope (crbs rbs : List Binding)
    (role_name : String) : Except String BindingScope :=
  match collectBindingNames (fun d => roleRefName d == some role_name) crbs with
  | .error e => .error e
  | .ok cluster_bindings =>
    match collectBindingNames
        (fun d => roleRefName d == some role_name &&
                  roleRefKind d == some "ClusterRole") rbs with
    | .error e => .error e
    | .ok role_bindings_list =>
      let counts := subjectTypeCounts (crbs ++ rbs) role_name
      .ok { cluster_wide := !cluster_bindings.isEmpty
            namespace_scoped := !role_bindings_list.isEmpty
            unbound := cluster_bindings.isEmpty && role_bindings_list.isEmpty
            cluster_bindings := cluster_bindings
            role_bindings := role_bindings_list
            subject_types_ServiceAccount := counts.1
            subject_types_Group := counts.2.1
            subject_types_User := counts.2.2 }

/-! ## Rule evaluator (`analyze_dangerous_permissions`) -/

/-- Code-point comparison of characters, as Python compares strings. -/
def charListLe : List Char → List Char → Bool
  | [], _ => true
  | _ :: _, [] => false
  | a :: as, b :: bs =>
    if a.toNat < b.toNat then true
    else if b.toNat < a.toNat then false
    else charListLe as bs

/-- Python `<=` on strings (lexicographic by code point). -/
def pyStrLe (a b : String) : Bool :=
  charListLe a.toList b.toList

/-- Insert into a `pyStrLe`-sorted list. -/
def insertSorted (x : String) : List String → List String
  | [] => [x]
  | y :: rest => if pyStrLe x y then x :: y :: rest else y :: insertSorted x rest

/-- Python `sorted(...)` on a collection of strings. -/
def pySorted (l : List String) : List String :=
  l.foldl (fun acc x => insertSorted x acc) []

/-- Python set insertion, modelled on a duplicate-free list. -/
def setAdd (s : List String) (x : String) : List String :=
  if s.contains x then s else s ++ [x]

/-- Python `set.update` with the elements of `xs`. -/
def setUpdate (s : List String) (xs : List String) : List String :=
  xs.foldl setAdd s

/-- The `dangerous_verbs` set (line 737). -/
def dangerous_verbs : List String :=
  ["escalate", "impersonate", "bind", "*"]

/-- The `dangerous_resources` set (lines 738-742). -/
def dangerous_resources : List String :=
  ["*", "secrets", "persistentvolumes", "nodes",
   "clusterroles", "clusterrolebindings", "pods/exec", "pods/attach"]

/-- The `escalation_combos` list (lines 745-748). -/
def escalation_combos : List (List String × List String) :=
  [(["create", "patch", "update"],
    ["roles", "clusterroles", "rolebindings", "clusterrolebindings"]),
   (["create"], ["pods"])]

/-- The message built for a triggered escalation combo (line 788). -/
def escalationMessage (combo : List String × List String) : String :=
  "Escalation risk: " ++ String.intercalate "/" (pySorted combo.1) ++
  " on " ++ String.intercalate "/" (pySorted combo.2)

/-- The per-role accumulators of the rule loop (lines 756-760). -/
structure RoleScan where
  all_dangerous_resources : List String
  all_dangerous_verbs : List String
  has_wildcard_resources : Bool
  has_wildcard_verbs : Bool
  escalation_issues : List String
deriving Repr, DecidableEq

/-- One iteration of the rule loop (lines 762-790). -/
def scanRule (sc : RoleScan) (rule : Rule) : RoleScan :=
  let resources := rule.resources.map pyLower
  let verbs := rule.verbs.map pyLower
  let hwr := sc.has_wildcard_resources || resources.contains "*"
  let hwv := sc.has_wildcard_verbs || verbs.contains "*"
  let adv := setUpdate sc.all_dangerous_verbs
    (verbs.filter (fun v => dangerous_verbs.contains v))
  let adr := setUpdate sc.all_dangerous_resources
    (resources.filter (fun r => dangerous_resources.contains r))
  let esc := escalation_combos.foldl
    (fun issues combo =>
      if verbs.any (fun v => combo.1.contains v) &&
         resources.any (fun r => combo.2.contains r) then
        let msg := escalationMessage combo
        if issues.contains msg then issues else issues ++ [msg]
      else issues)
    sc.escalation_issues
  { all_dangerous_resources := adr, all_dangerous_verbs := adv,
    has_wildcard_resources := hwr, has_wildcard_verbs := hwv,
    escalation_issues := esc }

/-- The full rule loop of one ClusterRole. -/
def scanRules (rules : List Rule) : RoleScan :=
  rules.foldl scanRule
    { all_dangerous_resources := [], all_dangerous_verbs := [],
      has_wildcard_resources := false, has_wildcard_verbs := false,
      escalation_issues := [] }

/-- The `findings_for_role` list (lines 792-801). -/
def findingsForRole (sc : RoleScan) : List String :=
  (if sc.has_wildcard_resources then ["Wildcard resources (*)"] else []) ++
  (if sc.has_wildcard_verbs then ["Wildcard verbs (*)"] else []) ++
  (if !sc.all_dangerous_verbs.isEmpty then
     ["Dangerous verbs: " ++
      String.intercalate ", " (pySorted sc.all_dangerous_verbs)]
   else []) ++
  (if !sc.all_dangerous_resources.isEmpty then
     ["Dangerous resources: " ++
      String.intercalate ", " (pySorted sc.all_dangerous_resources)]
   else []) ++
  sc.escalation_issues

/-- Attack-scenario key selection (lines 835-872), including the textual
re-parsing of each escalation-issue message. -/
def attackScenariosFor (sc : RoleScan) : List String :=
  let acc : List String := []
  let acc := if sc.has_wildcard_resources then acc ++ ["wildcard_resources"] else acc
  let acc := if sc.has_wildcard_verbs then acc ++ ["wildcard_verbs"] else acc
  let acc := if sc.all_dangerous_verbs.contains "escalate" then
      acc ++ ["dangerous_verb_escalate"] else acc
  let acc := if sc.all_dangerous_verbs.contains "impersonate" then
      acc ++ ["dangerous_verb_impersonate"] else acc
  let acc := if sc.all_dangerous_resources.contains "secrets" then
      acc ++ ["dangerous_resource_secrets"] else acc
  let acc := if sc.all_dangerous_resources.contains "pods/exec" ||
                sc.all_dangerous_resources.contains "pods/attach" then
      acc ++ ["dangerous_resource_pods_exec"] else acc
  sc.escalation_issues.foldl
    (fun acc issue =>
      let issue_lower := pyReplace (pyLower issue) "escalation risk: " ""
      if strContains issue_lower " on " then
        match pySplitOn issue_lower " on " with
        | [] => acc
        | verb_part :: restParts =>
          let resource_part := String.intercalate " on " restParts
          let verbs := pySplitOn verb_part "/"
          let resources := pySplitOn resource_part "/"
          let acc := if verbs.contains "create" && resources.contains "pods" then
              acc ++ ["escalation_create_pods"] else acc
          if ["rolebindings", "clusterrolebindings"].any
               (fun rb => resources.contains rb) then
            acc ++ ["escalation_create_rolebindings"]
          else acc
      else acc)
    acc

/-- Severity and remediation assignment (lines 874-903), as a function of
the binding scope and the two wildcard flags. -/
def severityAndRemediation (scope : BindingScope) (hwr hwv : Bool) :
    String × String :=
  if scope.unbound then
    ("INFO", "Remove unused ClusterRole or bind appropriately with least privilege")
  else if scope.cluster_wide then
    if hwr || hwv then
      ("CRITICAL", "Remove wildcard permissions and scope to namespace via RoleBinding")
    else
      ("HIGH", "Scope to namespace via RoleBinding or reduce permissions to minimum required")
  else
    if hwr || hwv then
      ("HIGH", "Remove wildcard permissions; specify exact resources and verbs needed")
    else if scope.subject_types_Group > 0 &&
            scope.subject_types_ServiceAccount == 0 then
      ("WARNING", "Verify these permissions are required for administrative access; document justification")
    else
      ("WARNING", "Verify these permissions are required; document justification if multi-tenant design")

/-- The enhanced description (lines 905-918). -/
def dangerDescription (issues : List String) (scope : BindingScope) : String :=
  let parts := [String.intercalate "; " issues]
  let parts :=
    if scope.cluster_wide then
      parts ++ ["Bound cluster-wide via ClusterRoleBinding"]
    else if scope.namespace_scoped then
      let parts := parts ++ ["Bound per-namespace via RoleBinding"]
      if scope.subject_types_Group > 0 then
        parts ++ ["Assigned to Group principals"]
      else if scope.subject_types_ServiceAccount > 0 then
        parts ++ ["Assigned to ServiceAccount principals"]
      else parts
    else
      parts ++ ["Not actively bound (dormant template)"]
  String.intercalate "; " parts

/-- The consolidated finding of one qualifying ClusterRole (lines 920-927). -/
def dangerFinding (role_name : String) (role_data : RoleData)
    (sc : RoleScan) (scope : BindingScope) : Finding :=
  let sevRem := severityAndRemediation scope sc.has_wildcard_resources
    sc.has_wildcard_verbs
  { severity := sevRem.1
    title := "ClusterRole " ++ role_name ++ " has dangerous permissions"
    description := dangerDescription (findingsForRole sc) scope
    file := role_data.file
    remediation := sevRem.2
    attack_scenarios := attackScenariosFor sc }

/-- The role loop of `analyze_dangerous_permissions` (lines 750-927):
qualifying roles produce one consolidated finding each.  Two exceptions
escape the loop, keeping the findings appended so far: iterating a
present-but-null `rules:` value raises `TypeError` (line 762), and a
`KeyError` can be raised inside `get_clusterrole_binding_scope`. -/
def dangerousLoop (crbs rbs : List Binding) :
    List (String × RoleData) → List Finding × Option String
  | [] => ([], none)
  | (role_name, role_data) :: rest =>
    match role_data.rules with
    | none => ([], some "TypeError: NoneType object is not iterable")
    | some rules =>
      let sc := scanRules rules
      if (findingsForRole sc).isEmpty then dangerousLoop crbs rbs rest
      else
        match get_clusterrole_binding_scope crbs rbs role_name with
        | .error e => ([], some e)
        | .ok scope =>
          let f := dangerFinding role_name role_data sc scope
          let r := dangerousLoop crbs rbs rest
          (f :: r.1, r.2)

/-- Model of `analyze_dangerous_permissions` (lines 733-930), returning the
appended findings and the error of an escaped exception, if any. -/
def analyze_dangerous_permissions (crbs rbs : List Binding)
    (cluster_roles : List (String × RoleData)) :
    List Finding × Option String :=
  dangerousLoop crbs rbs cluster_roles

/-- Rendering of the selector list in the aggregated-role finding
(Python formats the selector dictionaries with `f"{selectors}"`; the
rendering of each selector is abstracted to the stored string). -/
def renderSelectors (sel : List String) : String :=
  "[" ++ String.intercalate ", " sel ++ "]"

/-- Model of `check_aggregated_roles` (lines 932-955): one INFO finding per
ClusterRole whose document has an `aggregationRule` key. -/
def check_aggregated_roles (cluster_roles : List (String × RoleData)) :
    List Finding :=
  cluster_roles.foldl
    (fun acc nrd =>
      match nrd.2.aggregationSelectors with
      | none => acc
      | some sel =>
        acc ++ [{ severity := "INFO"
                  title := "Aggregated ClusterRole detected: " ++ nrd.1
                  description := "Aggregates permissions from roles matching " ++
                    renderSelectors sel
                  file := nrd.2.file
                  remediation := "Review aggregation selectors to ensure no unintended permissions are granted"
                  attack_scenarios := [] }])
    []

/-! ## Privilege-chain walker (`analyze_privilege_chains`) -/

/-- One entry of `sa_permissions[sa_key]` (lines 656-661 / 677-682). -/
structure Perm where
  type_ : Option String
  role : Option String
  binding : String
  file : String
deriving Repr, DecidableEq

/-- The entries appended for one ClusterRoleBinding (lines 644-661): one
per subject of kind `ServiceAccount`, keyed by the subject's namespace
(default `"default"`) and name; the entry carries the binding's
`metadata['name']`, whose absence raises `KeyError`. -/
def crbSubjectPerms (b : Binding) :
    List Subject → Except String (List (String × Perm))
  | [] => .ok []
  | s :: rest =>
    if s.kind == some "ServiceAccount" then
      let sa_key := s.namespace_.getD "default" ++ "/" ++ pyStr s.name
      match metadataName b.doc with
      | .error e => .error e
      | .ok bn =>
        match crbSubjectPerms b rest with
        | .error e => .error e
        | .ok ps =>
          .ok ((sa_key, { type_ := some "ClusterRole",
                          role := roleRefName b.doc,
                          binding := bn, file := b.file }) :: ps)
    else crbSubjectPerms b rest

/-- The entries appended for one RoleBinding (lines 664-682): the subject
namespace defaults to the binding's own namespace (`doc['metadata']` is
subscripted unconditionally — Python evaluates the default argument — so a
missing `metadata` raises for every ServiceAccount subject). -/
def rbSubjectPerms (b : Binding) :
    List Subject → Except String (List (String × Perm))
  | [] => .ok []
  | s :: rest =>
    if s.kind == some "ServiceAccount" then
      match b.doc.metadata with
      | none => .error "KeyError: 'metadata'"
      | some m =>
        let sa_namespace := s.namespace_.getD (m.namespace_.getD "default")
        let sa_key := sa_namespace ++ "/" ++ pyStr s.name
        match m.name with
        | none => .error "KeyError: 'name'"
        | some bn =>
          match rbSubjectPerms b rest with
          | .error e => .error e
          | .ok ps =>
            .ok ((sa_key, { type_ := roleRefKind b.doc,
                            role := roleRefName b.doc,
                            binding := bn, file := b.file }) :: ps)
    else rbSubjectPerms b rest

/-- The binding loops building `sa_permissions`, flattened over a list of
bindings. -/
def bindingPerms (one : Binding → List Subject → Except String (List (String × Perm))) :
    List Binding → Except String (List (String × Perm))
  | [] => .ok []
  | b :: rest =>
    match one b b.doc.subjects with
    | .error e => .error e
    | .ok ps =>
      match bindingPerms one rest with
      | .error e => .error e
      | .ok ps' => .ok (ps ++ ps')

/-- The `sa_permissions` map (lines 640-682) as an insertion-ordered multimap. -/
def buildSaPermissions (crbs rbs : List Binding) :
    Except String (List (String × Perm)) :=
  match bindingPerms crbSubjectPerms crbs with
  | .error e => .error e
  | .ok ps =>
    match bindingPerms rbSubjectPerms rbs with
    | .error e => .error e
    | .ok ps' => .ok (ps ++ ps')

/-- Lookup `sa_permissions[sa_key]` in append order. -/
def lookupPerms (saPerms : List (String × Perm)) (key : String) : List Perm :=
  (saPerms.filter (fun p => p.1 == key)).map (fun p => p.2)

/-- Model of `sa_key in sa_permissions`. -/
def saHasKey (saPerms : List (String × Perm)) (key : String) : Bool :=
  saPerms.any (fun p => p.1 == key)

/-- The title of the deduplicated RoleBinding→ClusterRole warning
(line 723). -/
def warnTitle (bindingName : String) : String :=
  "RoleBinding " ++ bindingName ++ " grants cluster-wide permissions"

/-- The CRITICAL cluster-admin finding (lines 708-714). -/
def clusterAdminFinding (pod_key sa_key pod_file : String) : Finding :=
  { severity := "CRITICAL"
    title := "Pod " ++ pod_key ++ " has cluster-admin access"
    description := "Pod uses ServiceAccount " ++ sa_key ++ " bound to cluster-admin"
    file := pod_file
    remediation := "Create a custom Role with minimal required permissions"
    attack_scenarios := [] }

/-- The WARNING finding for a RoleBinding that references a ClusterRole
(lines 721-727). -/
def rbClusterRoleWarning (perm : Perm) : Finding :=
  { severity := "WARNING"
    title := warnTitle perm.binding
    description := "RoleBinding references ClusterRole " ++ pyStr perm.role ++
      ", granting cluster-scoped permissions in namespace scope"
    file := perm.file
    remediation := "Use a namespace-scoped Role instead of ClusterRole"
    attack_scenarios := [] }

/-- Model of `any(b['doc']['metadata']['name'] == name for b in self.role_bindings)`
(lines 718-719): short-circuits at the first match, raising on a binding
with no metadata name reached before a match. -/
def rbHasBindingNamed (name : String) : List Binding → Except String Bool
  | [] => .ok false
  | b :: rest =>
    match metadataName b.doc with
    | .error e => .error e
    | .ok n => if n = name then .ok true else rbHasBindingNamed name rest

/-- The walker's mutable state: findings appended so far, the
`reported_bindings` set, and a pending uncaught exception. -/
structure WalkSt where
  findings : List Finding
  reported : List String
  err : Option String
deriving Repr, DecidableEq

/-- The body of the permission loop (lines 701-727) for one entry.  Once
an exception is pending every later step is a no-op (Python has already
left the method). -/
def processPerm (rbs : List Binding) (pod_key sa_key pod_file : String)
    (st : WalkSt) (perm : Perm) : WalkSt :=
  if st.err.isSome then st
  else
    let fs1 :=
      if perm.role == some "cluster-admin" then
        st.findings ++ [clusterAdminFinding pod_key sa_key pod_file]
      else st.findings
    if perm.type_ == some "ClusterRole" && !st.reported.contains perm.binding then
      match rbHasBindingNamed perm.binding rbs with
      | .error e => { findings := fs1, reported := st.reported, err := some e }
      | .ok true =>
        { findings := fs1 ++ [rbClusterRoleWarning perm]
          reported := st.reported ++ [perm.binding], err := none }
      | .ok false => { findings := fs1, reported := st.reported, err := none }
    else { findings := fs1, reported := st.reported, err := none }

/-- The body of the pod loop (lines 691-728) for one pod. -/
def processPod (rbs : List Binding) (saPerms : List (String × Perm))
    (st : WalkSt) (pod_key : String) (pod_info : PodInfo) : WalkSt :=
  if st.err.isSome then st
  else
    let namespace_ := splitHeadSlash pod_key
    let sa_key := namespace_ ++ "/" ++ pod_info.serviceAccount
    if saHasKey saPerms sa_key then
      (lookupPerms saPerms sa_key).foldl
        (processPerm rbs pod_key sa_key pod_info.file) st
    else st

/-- Model of `analyze_privilege_chains` (lines 636-731): the findings appended, and
the error of an escaped `KeyError`, if any. -/
def analyze_privilege_chains (crbs rbs : List Binding)
    (pods : List (String × PodInfo)) : List Finding × Option String :=
  match buildSaPermissions crbs rbs with
  | .error e => ([], some e)
  | .ok saPerms =>
    let final := pods.foldl
      (fun st p => processPod rbs saPerms st p.1 p.2)
      { findings := [], reported := [], err := none }
    (final.findings, final.err)

/-! ## Reporter (`generate_report`) -/

/-- One unit of report output: a printed line, or the confidential
attack-scenario prose block for one catalog key (the prose itself is the
static `ATTACK_SCENARIOS` data rendered by `_format_attack_scenario`). -/
inductive ReportItem where
  | line (s : String)
  | attackScenarioBlock (key : String)
deriving Repr, DecidableEq

/-- The `severity_levels` list (line 1071), in ascending order. -/
def severity_levels : List String :=
  ["INFO", "WARNING", "HIGH", "CRITICAL"]

/-- The report lines of one finding (lines 1053-1065). -/
def renderFinding (include_attack_scenarios : Bool) (i : Nat) (f : Finding) :
    List ReportItem :=
  [.line (toString i ++ ". **" ++ f.title ++ "**"),
   .line ("   - File: `" ++ f.file ++ "`"),
   .line ("   - Issue: " ++ f.description),
   .line ("   - Fix: " ++ f.remediation ++ "\n")] ++
  (if include_attack_scenarios && !f.attack_scenarios.isEmpty then
     [.line "   ---\n",
      .line "   **⚠️  DETAILED ATTACK SCENARIOS (CONFIDENTIAL)**\n"] ++
     f.attack_scenarios.map (fun k => ReportItem.attackScenarioBlock k) ++
     [.line "   ---\n"]
   else [])

/-- The section printed for one severity bucket (lines 1049-1065). -/
def renderSection (include_attack_scenarios : Bool) (findings : List Finding)
    (severity : String) : List ReportItem :=
  let fs := findings.filter (fun f => f.severity == severity)
  if fs.isEmpty then []
  else
    ReportItem.line ("\n### " ++ severity ++ " (" ++ toString fs.length ++
      " findings)\n") ::
    (fs.enum.map (fun p => renderFinding include_attack_scenarios (p.1 + 1) p.2)).flatten

/-- Model of `generate_report` (lines 1033-1083): the output events and the exit
code.  `fail_on_severity` is one of the four level strings (enforced by
`argparse` choices). -/
def generate_report (findings : List Finding) (fail_on_severity : String)
    (include_attack_scenarios : Bool) : List ReportItem × Nat :=
  let header : List ReportItem :=
    [.line "\n---", .line "\n## RBAC SECURITY FINDINGS SUMMARY\n", .line "---\n"]
  let sections :=
    (["CRITICAL", "HIGH", "WARNING", "INFO"].map
      (renderSection include_attack_scenarios findings)).flatten
  let totalLine : ReportItem :=
    .line ("\n**Total Findings**: " ++ toString findings.length)
  let fail_threshold := severity_levels.indexOf fail_on_severity
  let blocking := (severity_levels.drop fail_threshold).foldl
    (fun acc s => acc ++ findings.filter (fun f => f.severity == s)) []
  if blocking.isEmpty then
    (header ++ sections ++ [totalLine,
       .line ("\n✅ No " ++ fail_on_severity ++ "+ RBAC issues detected")], 0)
  else
    (header ++ sections ++ [totalLine,
       .line ("\n❌ " ++ toString blocking.length ++ " " ++ fail_on_severity ++
         "+ issues found (fail threshold: " ++ fail_on_severity ++ ")")], 1)

/-- The analysis phases run by `main` after loading (lines 1137-1139),
with findings accumulated in call order; an uncaught exception in an
earlier phase prevents the later phases from running. -/
def run_analysis (st : AnalyzerState) : List Finding × Option String :=
  let r1 := analyze_dangerous_permissions st.cluster_role_bindings
    st.role_bindings st.cluster_roles
  match r1.2 with
  | some e => (r1.1, some e)
  | none =>
    let f2 := check_aggregated_roles st.cluster_roles
    let r3 := analyze_privilege_chains st.cluster_role_bindings
      st.role_bindings st.pods
    (r1.1 ++ f2 ++ r3.1, r3.2)

/-! ## Helper lemmas -/

/-- A successful `collectBindingNames` returns `[]` exactly when no binding
satisfies the selection predicate. -/
theorem collectBindingNames_nil_iff {p : BindingDoc → Bool} :
    ∀ {l : List Binding} {ns : List String},
    collectBindingNames p l = .ok ns → (ns = [] ↔ ∀ b ∈ l, p b.doc = false) := by
  intro l
  induction l with
  | nil =>
    intro ns h
    simp only [collectBindingNames, Except.ok.injEq] at h
    subst h
    simp
  | cons b rest ih =>
    intro ns h
    by_cases hp : p b.doc
    · simp only [collectBindingNames, hp, if_true] at h
      cases hm : metadataName b.doc with
      | error e => rw [hm] at h; exact absurd h (by simp)
      | ok n =>
        rw [hm] at h
        cases hr : collectBindingNames p rest with
        | error e => rw [hr] at h; exact absurd h (by simp)
        | ok ns' =>
          rw [hr] at h
          simp only [Except.ok.injEq] at h
          subst h
          constructor
          · intro habs; exact absurd habs (by simp)
          · intro hall; exact absurd (hall b (by simp)) (by simp [hp])
    · simp only [collectBindingNames, hp, if_false] at h
      rw [ih h]
      constructor
      · intro hall b' hb'
        rcases List.mem_cons.mp hb' with h1 | h2
        · subst h1; exact eq_false_of_ne_true hp
        · exact hall b' h2
      · intro hall b' hb'; exact hall b' (List.mem_cons_of_mem _ hb')

/-- Appending one binding the selection predicate rejects does not change
a `collectBindingNames` run. -/
theorem collectBindingNames_append_unselected {p : BindingDoc → Bool}
    {b : Binding} (hb : p b.doc = false) :
    ∀ l : List Binding,
    collectBindingNames p (l ++ [b]) = collectBindingNames p l := by
  intro l
  induction l with
  | nil => simp [collectBindingNames, hb]
  | cons x rest ih =>
    cases hx : p x.doc with
    | true => simp [collectBindingNames, hx, ih]
    | false => simp [collectBindingNames, hx, ih]

/-- Shape of a successful `get_clusterrole_binding_scope` run. -/
theorem get_scope_spec {crbs rbs : List Binding} {name : String}
    {scope : BindingScope}
    (h : get_clusterrole_binding_scope crbs rbs name = .ok scope) :
    ∃ cb rbl,
      collectBindingNames (fun d => roleRefName d == some name) crbs = .ok cb ∧
      collectBindingNames
        (fun d => roleRefName d == some name &&
                  roleRefKind d == some "ClusterRole") rbs = .ok rbl ∧
      scope = { cluster_wide := !cb.isEmpty
                namespace_scoped := !rbl.isEmpty
                unbound := cb.isEmpty && rbl.isEmpty
                cluster_bindings := cb
                role_bindings := rbl
                subject_types_ServiceAccount :=
                  (subjectTypeCounts (crbs ++ rbs) name).1
                subject_types_Group :=
                  (subjectTypeCounts (crbs ++ rbs) name).2.1
                subject_types_User :=
                  (subjectTypeCounts (crbs ++ rbs) name).2.2 } := by
  unfold get_clusterrole_binding_scope at h
  cases hc : collectBindingNames (fun d => roleRefName d == some name) crbs with
  | error e => rw [hc] at h; exact absurd h (by simp)
  | ok cb =>
    rw [hc] at h
    cases hr : collectBindingNames
        (fun d => roleRefName d == some name &&
                  roleRefKind d == some "ClusterRole") rbs with
    | error e => rw [hr] at h; exact absurd h (by simp)
    | ok rbl =>
      rw [hr] at h
      simp only [Except.ok.injEq] at h
      exact ⟨cb, rbl, rfl, rfl, h.symm⟩

/-- isEmpty of a list versus nonexistence of a selected element. -/
theorem collect_isEmpty_iff {p : BindingDoc → Bool} {l : List Binding}
    {ns : List String} (h : collectBindingNames p l = .ok ns) :
    (ns.isEmpty = false ↔ ∃ b ∈ l, p b.doc = true) := by
  rw [List.isEmpty_eq_false_iff_exists_mem]
  constructor
  · intro ⟨x, hx⟩
    by_contra hno
    push_neg at hno
    have : ∀ b ∈ l, p b.doc = false := by
      intro b hb
      cases hpb : p b.doc with
      | false => rfl
      | true => exact absurd hpb (hno b hb)
    have := (collectBindingNames_nil_iff h).mpr this
    subst this
    exact absurd hx (List.not_mem_nil x)
  · intro ⟨b, hb, hpb⟩
    cases hns : ns with
    | nil =>
      subst hns
      exact absurd hpb (by simp [(collectBindingNames_nil_iff h).mp rfl b hb])
    | cons n rest => exact ⟨n, by simp [hns]⟩

/-- Lemma: `subjectBucket` increments the starting accumulator componentwise. -/
theorem subjectBucket_shift (a : Nat × Nat × Nat) (s : Subject) :
    subjectBucket a s =
      (a.1 + (subjectBucket (0, 0, 0) s).1,
       a.2.1 + (subjectBucket (0, 0, 0) s).2.1,
       a.2.2 + (subjectBucket (0, 0, 0) s).2.2) := by
  unfold subjectBucket
  split <;> simp

/-- The subject fold increments the starting accumulator componentwise. -/
theorem subjectFold_shift :
    ∀ (subjects : List Subject) (a : Nat × Nat × Nat),
    subjects.foldl subjectBucket a =
      (a.1 + (subjects.foldl subjectBucket (0, 0, 0)).1,
       a.2.1 + (subjects.foldl subjectBucket (0, 0, 0)).2.1,
       a.2.2 + (subjects.foldl subjectBucket (0, 0, 0)).2.2) := by
  intro subjects
  induction subjects with
  | nil => intro a; simp
  | cons x rest ih =>
    intro a
    simp only [List.foldl_cons]
    rw [ih (subjectBucket a x), ih (subjectBucket (0, 0, 0) x),
        subjectBucket_shift a x]
    simp [Nat.add_assoc]

/-- Lemma: `subjectTypeCounts` over `l ++ [b]` for a binding whose roleRef name
matches: the counts gain exactly the subjects of `b`. -/
theorem subjectTypeCounts_append_matching {b : Binding} {name : String}
    (hb : (roleRefName b.doc == some name) = true) (l : List Binding) :
    subjectTypeCounts (l ++ [b]) name =
      ((subjectTypeCounts l name).1 + (subjectTypeCounts [b] name).1,
       (subjectTypeCounts l name).2.1 + (subjectTypeCounts [b] name).2.1,
       (subjectTypeCounts l name).2.2 + (subjectTypeCounts [b] name).2.2) := by
  unfold subjectTypeCounts
  rw [List.foldl_append]
  simp only [List.foldl_cons, List.foldl_nil, hb, if_true]
  exact subjectFold_shift b.doc.subjects _

/-! ## Claims -/

/-- C5: the loader excludes a file iff some whole path segment equals one
of the excluded names; matching is on whole segments, never substrings, so
`config/rolebindings/admin.yaml` is scanned while `test/rbac.yaml` is
excluded, and an excluded file contributes nothing to a loader run. -/
theorem claim_C5_segment_exclusion :
    (∀ parts : List String,
      isExcludedPath parts = true ↔ ∃ seg ∈ parts, seg ∈ excluded_dirs) ∧
    isExcludedPath ["config", "rolebindings", "admin.yaml"] = false ∧
    isExcludedPath ["test", "rbac.yaml"] = true ∧
    (∀ parse st (f : ScannedFile) rest, isExcludedPath f.parts = true →
      load_yaml_files parse st (f :: rest) = load_yaml_files parse st rest) := by
  refine ⟨fun parts => ?_, by decide, by decide, fun parse st f rest hf => ?_⟩
  · simp only [isExcludedPath, List.any_eq_true]
    constructor
    · rintro ⟨x, hx, hcon⟩
      exact ⟨x, by simpa using hcon, hx⟩
    · rintro ⟨seg, hseg, hmem⟩
      exact ⟨seg, hmem, by simpa using hseg⟩
  · simp [load_yaml_files, hf]

/-- Witness for C5 at the two concrete paths of the specification. -/
theorem claim_C5_witness :
    isExcludedPath ["test", "rbac.yaml"] = true ∧
    isExcludedPath ["config", "rolebindings", "admin.yaml"] = false ∧
    load_yaml_files (fun _ => ([], some "boom")) initState
      [{ parts := ["test", "rbac.yaml"], content := "kind: Role" }] =
      (initState, []) :=
  ⟨claim_C5_segment_exclusion.2.2.1,
   claim_C5_segment_exclusion.2.1,
   claim_C5_segment_exclusion.2.2.2 _ _ _ []
     claim_C5_segment_exclusion.2.2.1⟩

/-- C3: a successful binding-scope query reports `cluster_wide` iff some
ClusterRoleBinding's roleRef.name equals the queried name,
`namespace_scoped` iff some RoleBinding's roleRef matches it with kind
`ClusterRole`, and `unbound` iff neither holds. -/
theorem claim_C3_binding_scope_query :
    ∀ (crbs rbs : List Binding) (name : String) (scope : BindingScope),
    get_clusterrole_binding_scope crbs rbs name = .ok scope →
    (scope.cluster_wide = true ↔ ∃ b ∈ crbs, roleRefName b.doc = some name) ∧
    (scope.namespace_scoped = true ↔
      ∃ b ∈ rbs, roleRefName b.doc = some name ∧
        roleRefKind b.doc = some "ClusterRole") ∧
    (scope.unbound = true ↔
      (¬∃ b ∈ crbs, roleRefName b.doc = some name) ∧
      ¬∃ b ∈ rbs, roleRefName b.doc = some name ∧
        roleRefKind b.doc = some "ClusterRole") := by
  intro crbs rbs name scope h
  obtain ⟨cb, rbl, hc, hr, hs⟩ := get_scope_spec h
  subst hs
  have hcw : cb.isEmpty = false ↔ ∃ b ∈ crbs, roleRefName b.doc = some name := by
    rw [collect_isEmpty_iff hc]
    simp
  have hns : rbl.isEmpty = false ↔
      ∃ b ∈ rbs, roleRefName b.doc = some name ∧
        roleRefKind b.doc = some "ClusterRole" := by
    rw [collect_isEmpty_iff hr]
    simp [Bool.and_eq_true]
  refine ⟨?_, ?_, ?_⟩
  · simpa [Bool.not_eq_true'] using hcw
  · simpa [Bool.not_eq_true'] using hns
  · simp only [Bool.and_eq_true]
    rw [← not_iff_not] at hcw hns
    constructor
    · rintro ⟨h1, h2⟩
      exact ⟨hcw.mp (by simp [h1]), hns.mp (by simp [h2])⟩
    · rintro ⟨h1, h2⟩
      have := hcw.mpr h1
      have := hns.mpr h2
      simp only [Bool.not_eq_false] at *
      exact ⟨by assumption, by assumption⟩

/-- Witness for C3: the `viewer` scenario — a RoleBinding in namespace
`dev` with roleRef kind ClusterRole and name `viewer`, nothing else. -/
theorem claim_C3_witness :
    ∃ scope,
      get_clusterrole_binding_scope []
        [{ doc := { metadata := some { name := some "rb1", namespace_ := some "dev" },
                    roleRef := some { kind := some "ClusterRole", name := some "viewer" },
                    subjects := [{ kind := some "ServiceAccount",
                                   namespace_ := some "dev", name := some "sa1" }] },
           file := "dev/rb.yaml" }] "viewer" = .ok scope ∧
      scope.namespace_scoped = true ∧ scope.cluster_wide = false := by
  have h : get_clusterrole_binding_scope []
      [{ doc := { metadata := some { name := some "rb1", namespace_ := some "dev" },
                  roleRef := some { kind := some "ClusterRole", name := some "viewer" },
                  subjects := [{ kind := some "ServiceAccount",
                                 namespace_ := some "dev", name := some "sa1" }] },
         file := "dev/rb.yaml" }] "viewer" =
      .ok { cluster_wide := false, namespace_scoped := true, unbound := false,
            cluster_bindings := [], role_bindings := ["rb1"],
            subject_types_ServiceAccount := 1, subject_types_Group := 0,
            subject_types_User := 0 } := rfl
  refine ⟨_, h, rfl, Bool.eq_false_iff.mpr (fun hc => ?_)⟩
  obtain ⟨b, hb, _⟩ := (claim_C3_binding_scope_query _ _ _ _ h).1.mp hc
  exact absurd hb (List.not_mem_nil b)

/-- C1: for a ClusterRole evaluated by the dangerous-permission pass, the
severity of its consolidated finding follows the precedence: unbound →
INFO regardless of wildcards; bound via a ClusterRoleBinding with a
wildcard resource or verb → CRITICAL; bound via a ClusterRoleBinding
otherwise → HIGH; bound only via RoleBinding with a wildcard → HIGH;
bound only via RoleBinding without wildcards → WARNING. -/
theorem claim_C1_severity_precedence :
    ∀ (crbs rbs : List Binding) (name : String) (scope : BindingScope)
      (rd : RoleData) (sc : RoleScan),
    get_clusterrole_binding_scope crbs rbs name = .ok scope →
    ((scope.unbound = true → (dangerFinding name rd sc scope).severity = "INFO") ∧
     (scope.cluster_wide = true →
        (sc.has_wildcard_resources = true ∨ sc.has_wildcard_verbs = true) →
        (dangerFinding name rd sc scope).severity = "CRITICAL") ∧
     (scope.cluster_wide = true → sc.has_wildcard_resources = false →
        sc.has_wildcard_verbs = false →
        (dangerFinding name rd sc scope).severity = "HIGH") ∧
     (scope.cluster_wide = false → scope.namespace_scoped = true →
        (sc.has_wildcard_resources = true ∨ sc.has_wildcard_verbs = true) →
        (dangerFinding name rd sc scope).severity = "HIGH") ∧
     (scope.cluster_wide = false → scope.namespace_scoped = true →
        sc.has_wildcard_resources = false → sc.has_wildcard_verbs = false →
        (dangerFinding name rd sc scope).severity = "WARNING")) := by
  intro crbs rbs name scope rd sc h
  obtain ⟨cb, rbl, _, _, hs⟩ := get_scope_spec h
  subst hs
  refine ⟨?_, ?_, ?_, ?_, ?_⟩
  · intro hu
    simp only [BindingScope.unbound] at hu
    simp [dangerFinding, severityAndRemediation, hu]
  · intro hcw hw
    have hcb : cb.isEmpty = false := by simpa using hcw
    rcases hw with hw | hw <;>
      simp [dangerFinding, severityAndRemediation, hcb, hw]
  · intro hcw h1 h2
    have hcb : cb.isEmpty = false := by simpa using hcw
    simp [dangerFinding, severityAndRemediation, hcb, h1, h2]
  · intro hcw hns hw
    have hcb : cb.isEmpty = true := by simpa using hcw
    have hrb : rbl.isEmpty = false := by simpa using hns
    rcases hw with hw | hw <;>
      simp [dangerFinding, severityAndRemediation, hcb, hrb, hw]
  · intro hcw hns h1 h2
    have hcb : cb.isEmpty = true := by simpa using hcw
    have hrb : rbl.isEmpty = false := by simpa using hns
    simp only [dangerFinding, severityAndRemediation, hcb, hrb, h1, h2]
    by_cases hg :
        (subjectTypeCounts (crbs ++ rbs) name).2.1 > 0 ∧
        (subjectTypeCounts (crbs ++ rbs) name).1 = 0
    · simp [hg.1, hg.2]
    · rcases Decidable.not_and_iff_or_not.mp hg with hg1 | hg2
      · simp [Nat.eq_zero_of_not_pos (by simpa using hg1)]
      · have : ((subjectTypeCounts (crbs ++ rbs) name).1 == 0) = false := by
          simpa using hg2
        simp [this]

/-- Witness for C1: a ClusterRole bound cluster-wide whose scan found a
wildcard resource is assigned CRITICAL severity. -/
theorem claim_C1_witness :
    ∃ scope,
      get_clusterrole_binding_scope
        [{ doc := { metadata := some { name := some "crb1", namespace_ := none },
                    roleRef := some { kind := some "ClusterRole", name := some "r" },
                    subjects := [] },
           file := "crb.yaml" }] [] "r" = .ok scope ∧
      (dangerFinding "r" { rules := some [], file := "cr.yaml", aggregationSelectors := none }
        { all_dangerous_resources := ["*"], all_dangerous_verbs := [],
          has_wildcard_resources := true, has_wildcard_verbs := false,
          escalation_issues := [] } scope).severity = "CRITICAL" := by
  have h : get_clusterrole_binding_scope
      [{ doc := { metadata := some { name := some "crb1", namespace_ := none },
                  roleRef := some { kind := some "ClusterRole", name := some "r" },
                  subjects := [] },
         file := "crb.yaml" }] [] "r" =
      .ok { cluster_wide := true, namespace_scoped := false, unbound := false,
            cluster_bindings := ["crb1"], role_bindings := [],
            subject_types_ServiceAccount := 0, subject_types_Group := 0,
            subject_types_User := 0 } := rfl
  refine ⟨_, h, ?_⟩
  exact (claim_C1_severity_precedence _ _ _ _ _ _ h).2.1 rfl (Or.inl rfl)

/-- C10: a successful binding-scope query counts the subjects of every
binding whose roleRef.name matches, irrespective of roleRef.kind: a
RoleBinding with roleRef.kind `Role` but a coinciding name adds its
subject counts while leaving `cluster_wide` / `namespace_scoped` /
`unbound` unchanged. -/
theorem claim_C10_subject_counts_ignore_kind :
    ∀ (crbs rbs : List Binding) (rb : Binding) (name : String)
      (scope scope' : BindingScope),
    roleRefName rb.doc = some name → roleRefKind rb.doc = some "Role" →
    get_clusterrole_binding_scope crbs rbs name = .ok scope →
    get_clusterrole_binding_scope crbs (rbs ++ [rb]) name = .ok scope' →
    scope'.cluster_wide = scope.cluster_wide ∧
    scope'.namespace_scoped = scope.namespace_scoped ∧
    scope'.unbound = scope.unbound ∧
    scope'.subject_types_ServiceAccount =
      scope.subject_types_ServiceAccount + (subjectTypeCounts [rb] name).1 ∧
    scope'.subject_types_Group =
      scope.subject_types_Group + (subjectTypeCounts [rb] name).2.1 ∧
    scope'.subject_types_User =
      scope.subject_types_User + (subjectTypeCounts [rb] name).2.2 := by
  intro crbs rbs rb name scope scope' hname hkind h h'
  obtain ⟨cb, rbl, hc, hr, hs⟩ := get_scope_spec h
  obtain ⟨cb', rbl', hc', hr', hs'⟩ := get_scope_spec h'
  have hsel : (roleRefName rb.doc == some name &&
      roleRefKind rb.doc == some "ClusterRole") = false := by
    simp [hkind]
  rw [collectBindingNames_append_unselected hsel rbs, hr] at hr'
  rw [hc] at hc'
  have hcb : cb' = cb := by injection hc' with h0; exact h0.symm
  have hrb : rbl' = rbl := by injection hr' with h0; exact h0.symm
  subst hcb hrb hs hs'
  have hmatch : (roleRefName rb.doc == some name) = true := by simp [hname]
  have hassoc : crbs ++ (rbs ++ [rb]) = (crbs ++ rbs) ++ [rb] :=
    (List.append_assoc crbs rbs [rb]).symm
  refine ⟨rfl, rfl, rfl, ?_, ?_, ?_⟩
  · show (subjectTypeCounts (crbs ++ (rbs ++ [rb])) name).1 =
      (subjectTypeCounts (crbs ++ rbs) name).1 + (subjectTypeCounts [rb] name).1
    rw [hassoc, subjectTypeCounts_append_matching hmatch]
  · show (subjectTypeCounts (crbs ++ (rbs ++ [rb])) name).2.1 =
      (subjectTypeCounts (crbs ++ rbs) name).2.1 + (subjectTypeCounts [rb] name).2.1
    rw [hassoc, subjectTypeCounts_append_matching hmatch]
  · show (subjectTypeCounts (crbs ++ (rbs ++ [rb])) name).2.2 =
      (subjectTypeCounts (crbs ++ rbs) name).2.2 + (subjectTypeCounts [rb] name).2.2
    rw [hassoc, subjectTypeCounts_append_matching hmatch]

/-- Witness for C10: adding a RoleBinding with roleRef kind `Role` and a
coinciding name changes the ServiceAccount subject count — and with it the
WARNING remediation branch — while all three scope flags are unchanged. -/
theorem claim_C10_witness :
    ∃ scope scope',
      get_clusterrole_binding_scope []
        [{ doc := { metadata := some { name := some "rbCR", namespace_ := some "ns1" },
                    roleRef := some { kind := some "ClusterRole", name := some "x" },
                    subjects := [{ kind := some "Group", namespace_ := none,
                                   name := some "admins" }] },
           file := "a.yaml" }] "x" = .ok scope ∧
      get_clusterrole_binding_scope []
        ([{ doc := { metadata := some { name := some "rbCR", namespace_ := some "ns1" },
                     roleRef := some { kind := some "ClusterRole", name := some "x" },
                     subjects := [{ kind := some "Group", namespace_ := none,
                                    name := some "admins" }] },
            file := "a.yaml" }] ++
         [{ doc := { metadata := some { name := some "rbR", namespace_ := some "ns1" },
                     roleRef := some { kind := some "Role", name := some "x" },
                     subjects := [{ kind := some "ServiceAccount",
                                    namespace_ := some "ns1", name := some "sa" }] },
            file := "b.yaml" }]) "x" = .ok scope' ∧
      scope'.cluster_wide = scope.cluster_wide ∧
      scope'.namespace_scoped = scope.namespace_scoped ∧
      scope'.unbound = scope.unbound ∧
      scope'.subject_types_ServiceAccount =
        scope.subject_types_ServiceAccount + 1 ∧
      (severityAndRemediation scope false false).2 ≠
        (severityAndRemediation scope' false false).2 := by
  have h : get_clusterrole_binding_scope []
      [{ doc := { metadata := some { name := some "rbCR", namespace_ := some "ns1" },
                  roleRef := some { kind := some "ClusterRole", name := some "x" },
                  subjects := [{ kind := some "Group", namespace_ := none,
                                 name := some "admins" }] },
         file := "a.yaml" }] "x" =
      .ok { cluster_wide := false, namespace_scoped := true, unbound := false,
            cluster_bindings := [], role_bindings := ["rbCR"],
            subject_types_ServiceAccount := 0, subject_types_Group := 1,
            subject_types_User := 0 } := rfl
  have h' : get_clusterrole_binding_scope []
      ([{ doc := { metadata := some { name := some "rbCR", namespace_ := some "ns1" },
                   roleRef := some { kind := some "ClusterRole", name := some "x" },
                   subjects := [{ kind := some "Group", namespace_ := none,
                                  name := some "admins" }] },
          file := "a.yaml" }] ++
       [{ doc := { metadata := some { name := some "rbR", namespace_ := some "ns1" },
                   roleRef := some { kind := some "Role", name := some "x" },
                   subjects := [{ kind := some "ServiceAccount",
                                  namespace_ := some "ns1", name := some "sa" }] },
          file := "b.yaml" }]) "x" =
      .ok { cluster_wide := false, namespace_scoped := true, unbound := false,
            cluster_bindings := [], role_bindings := ["rbCR"],
            subject_types_ServiceAccount := 1, subject_types_Group := 1,
            subject_types_User := 0 } := rfl
  obtain ⟨f1, f2, f3, f4, _, _⟩ :=
    claim_C10_subject_counts_ignore_kind _ _ _ _ _ _ (by decide) (by decide) h h'
  exact ⟨_, _, h, h', f1, f2, f3, f4, by decide⟩

/-- A fold that appends `g s` per element equals the flattened map. -/
theorem foldl_append_eq_flatten {α β : Type} (g : α → List β) :
    ∀ (ls : List α) (a : List β),
    ls.foldl (fun acc s => acc ++ g s) a = a ++ (ls.map g).flatten := by
  intro ls
  induction ls with
  | nil => intro a; simp
  | cons x rest ih => intro a; simp [ih, List.append_assoc]

/-- Membership in the dropped severity suffix is exactly "severity at or
above the threshold" in the `INFO < WARNING < HIGH < CRITICAL` order. -/
theorem mem_drop_levels (fail_on : String) (h : fail_on ∈ severity_levels)
    (s : String) :
    (s ∈ severity_levels.drop (severity_levels.indexOf fail_on)) ↔
    (s ∈ severity_levels ∧
     severity_levels.indexOf fail_on ≤ severity_levels.indexOf s) := by
  have hs4 : fail_on = "INFO" ∨ fail_on = "WARNING" ∨ fail_on = "HIGH" ∨
      fail_on = "CRITICAL" := by simpa [severity_levels] using h
  by_cases hsmem : s ∈ severity_levels
  · have hs4' : s = "INFO" ∨ s = "WARNING" ∨ s = "HIGH" ∨ s = "CRITICAL" := by
      simpa [severity_levels] using hsmem
    rcases hs4 with rfl | rfl | rfl | rfl <;>
      rcases hs4' with rfl | rfl | rfl | rfl <;> decide
  · constructor
    · intro hx
      exact absurd (List.mem_of_mem_drop hx) hsmem
    · rintro ⟨hmem2, _⟩
      exact absurd hmem2 hsmem

/-- C2: for a threshold among the four levels, `generate_report` returns
exit code 1 iff some finding's severity is at or above the threshold in
the order INFO < WARNING < HIGH < CRITICAL, and 0 otherwise. -/
theorem claim_C2_exit_code :
    ∀ (findings : List Finding) (fail_on : String) (inc : Bool),
    fail_on ∈ severity_levels →
    (((generate_report findings fail_on inc).2 = 1 ↔
       ∃ f ∈ findings, f.severity ∈ severity_levels ∧
         severity_levels.indexOf fail_on ≤ severity_levels.indexOf f.severity) ∧
     ((generate_report findings fail_on inc).2 = 0 ↔
       ¬∃ f ∈ findings, f.severity ∈ severity_levels ∧
         severity_levels.indexOf fail_on ≤ severity_levels.indexOf f.severity)) := by
  intro findings fail_on inc hmem
  set blocking := (severity_levels.drop (severity_levels.indexOf fail_on)).foldl
    (fun acc s => acc ++ findings.filter (fun f => f.severity == s)) []
    with hblocking
  have key : blocking.isEmpty = true ↔
      ¬∃ f ∈ findings, f.severity ∈ severity_levels ∧
        severity_levels.indexOf fail_on ≤ severity_levels.indexOf f.severity := by
    rw [hblocking, foldl_append_eq_flatten]
    simp only [List.nil_append, List.isEmpty_iff, List.flatten_eq_nil_iff,
      List.mem_map]
    constructor
    · rintro hall ⟨f, hf, hs, hle⟩
      have hnil : findings.filter (fun x => x.severity == f.severity) = [] :=
        hall _ ⟨f.severity, (mem_drop_levels fail_on hmem f.severity).mpr
          ⟨hs, hle⟩, rfl⟩
      rw [List.filter_eq_nil_iff] at hnil
      exact hnil f hf (by simp)
    · rintro hno l ⟨sev, hsdrop, rfl⟩
      rw [List.filter_eq_nil_iff]
      intro f hf hbeq
      have hseq : f.severity = sev := by simpa using hbeq
      rw [← hseq] at hsdrop
      have hc := (mem_drop_levels fail_on hmem f.severity).mp hsdrop
      exact hno ⟨f, hf, hc.1, hc.2⟩
  have hexit : (generate_report findings fail_on inc).2 =
      if blocking.isEmpty then 0 else 1 := by
    by_cases hb : blocking.isEmpty <;>
      simp [generate_report, ← hblocking, hb]
  by_cases hb : blocking.isEmpty = true
  · have hno := key.mp hb
    rw [hexit, if_pos hb]
    exact ⟨⟨fun h0 => absurd h0 (by decide), fun hex => absurd hex hno⟩,
           iff_of_true rfl hno⟩
  · have hex : ∃ f ∈ findings, f.severity ∈ severity_levels ∧
        severity_levels.indexOf fail_on ≤ severity_levels.indexOf f.severity := by
      by_contra hno
      exact hb (key.mpr hno)
    rw [hexit, if_neg hb]
    exact ⟨iff_of_true rfl hex,
           ⟨fun h0 => absurd h0 (by decide), fun hno => absurd hex hno⟩⟩

/-- Witness for C2: with threshold WARNING, an INFO-only finding list
exits 0 and a list containing a WARNING finding exits 1. -/
theorem claim_C2_witness :
    (generate_report
      [{ severity := "INFO", title := "t", description := "d", file := "f",
         remediation := "r", attack_scenarios := [] }] "WARNING" false).2 = 0 ∧
    (generate_report
      [{ severity := "INFO", title := "t", description := "d", file := "f",
         remediation := "r", attack_scenarios := [] },
       { severity := "WARNING", title := "t2", description := "d2", file := "f2",
         remediation := "r2", attack_scenarios := [] }] "WARNING" false).2 = 1 := by
  constructor
  · exact (claim_C2_exit_code _ "WARNING" false (by decide)).2.mpr (by decide)
  · exact (claim_C2_exit_code _ "WARNING" false (by decide)).1.mpr
      ⟨{ severity := "WARNING", title := "t2", description := "d2", file := "f2",
         remediation := "r2", attack_scenarios := [] }, by simp, by decide⟩

/-- With the attack-scenario flag off, a rendered finding consists of
plain lines only. -/
theorem renderFinding_public_lines (i : Nat) (f : Finding)
    (item : ReportItem) (h : item ∈ renderFinding false i f) :
    ∃ s, item = .line s := by
  simp [renderFinding] at h
  rcases h with rfl | rfl | rfl | rfl <;> exact ⟨_, rfl⟩

/-- With the attack-scenario flag off, a severity section consists of
plain lines only. -/
theorem renderSection_public_lines (findings : List Finding) (sev : String)
    (item : ReportItem) (h : item ∈ renderSection false findings sev) :
    ∃ s, item = .line s := by
  unfold renderSection at h
  by_cases he : (findings.filter (fun f => f.severity == sev)).isEmpty
  · rw [if_pos he] at h
    exact absurd h (List.not_mem_nil item)
  · rw [if_neg he] at h
    rcases List.mem_cons.mp h with rfl | h2
    · exact ⟨_, rfl⟩
    · obtain ⟨l, hl, hil⟩ := List.mem_flatten.mp h2
      obtain ⟨p, _, rfl⟩ := List.mem_map.mp hl
      exact renderFinding_public_lines _ _ _ hil

/-- C9: in the default/public mode (attack-scenario flag off) the
generated report contains no attack-scenario prose block for any catalog
key, whatever the finding list and threshold. -/
theorem claim_C9_no_attack_prose :
    ∀ (findings : List Finding) (fail_on : String) (key : String),
    ReportItem.attackScenarioBlock key ∉ (generate_report findings fail_on false).1 := by
  intro findings fail_on key hmem
  obtain ⟨last, hout, s0, hlast⟩ :
      ∃ last, (generate_report findings fail_on false).1 =
        ([ReportItem.line "\n---",
          ReportItem.line "\n## RBAC SECURITY FINDINGS SUMMARY\n",
          ReportItem.line "---\n"] ++
         (["CRITICAL", "HIGH", "WARNING", "INFO"].map
            (renderSection false findings)).flatten ++
         [ReportItem.line ("\n**Total Findings**: " ++ toString findings.length),
          last]) ∧ ∃ s, last = ReportItem.line s := by
    unfold generate_report
    dsimp only
    by_cases hb : (List.foldl
        (fun acc s => acc ++ List.filter (fun f => f.severity == s) findings) []
        (List.drop (List.indexOf fail_on severity_levels)
          severity_levels)).isEmpty
    · rw [if_pos hb]
      exact ⟨_, rfl, _, rfl⟩
    · rw [if_neg hb]
      exact ⟨_, rfl, _, rfl⟩
  rw [hout] at hmem
  rcases List.mem_append.mp hmem with h12 | htail
  · rcases List.mem_append.mp h12 with hhdr | hsec
    · simp at hhdr
    · obtain ⟨l, hl, hil⟩ := List.mem_flatten.mp hsec
      obtain ⟨sev, _, rfl⟩ := List.mem_map.mp hl
      obtain ⟨s, hs⟩ := renderSection_public_lines findings sev _ hil
      exact ReportItem.noConfusion hs
  · rcases List.mem_cons.mp htail with h1 | h2
    · exact ReportItem.noConfusion h1
    · have h3 := List.mem_singleton.mp h2
      rw [hlast] at h3
      exact ReportItem.noConfusion h3

/-- Witness for C9: a finding carrying a scenario key emits no prose
block in public mode, while the same finding list in private mode does
emit the block. -/
theorem claim_C9_witness :
    ReportItem.attackScenarioBlock "wildcard_resources" ∉
      (generate_report
        [{ severity := "CRITICAL", title := "t", description := "d",
           file := "f", remediation := "r",
           attack_scenarios := ["wildcard_resources"] }] "CRITICAL" false).1 ∧
    ReportItem.attackScenarioBlock "wildcard_resources" ∈
      (generate_report
        [{ severity := "CRITICAL", title := "t", description := "d",
           file := "f", remediation := "r",
           attack_scenarios := ["wildcard_resources"] }] "CRITICAL" true).1 :=
  ⟨claim_C9_no_attack_prose _ _ _, by decide⟩

/-- C6 counterexample: the claim says a parse failure on a non-template
file makes the loader skip the file; but `yaml.safe_load_all` is a lazy
generator interleaved with `_categorize_resource`, so in a multi-document
non-template file whose second document is malformed, the first document
has already been categorized when the failure is raised — the state
differs from the pre-file state although the warning is emitted. -/
theorem claim_C6_counterexample :
    is_template "config/multi.yaml"
      "kind: Role\nmetadata:\n  name: r1\n---\n: bad" = false ∧
    process_yaml_file
      (fun _ => ([{ kind := some "Role",
                    metadata := some { name := some "r1", namespace_ := none },
                    rules := none, roleRef := none, subjects := [],
                    specServiceAccountName := none, specAutomountToken := none,
                    aggregationSelectors := none }],
                 some "mapping values are not allowed here"))
      initState "config/multi.yaml"
      "kind: Role\nmetadata:\n  name: r1\n---\n: bad" =
      (categorizeDocs initState
        [{ kind := some "Role",
           metadata := some { name := some "r1", namespace_ := none },
           rules := none, roleRef := none, subjects := [],
           specServiceAccountName := none, specAutomountToken := none,
           aggregationSelectors := none }] "config/multi.yaml",
       ["Warning: Failed to parse config/multi.yaml: mapping values are not allowed here"]) ∧
    (process_yaml_file
      (fun _ => ([{ kind := some "Role",
                    metadata := some { name := some "r1", namespace_ := none },
                    rules := none, roleRef := none, subjects := [],
                    specServiceAccountName := none, specAutomountToken := none,
                    aggregationSelectors := none }],
                 some "mapping values are not allowed here"))
      initState "config/multi.yaml"
      "kind: Role\nmetadata:\n  name: r1\n---\n: bad").1 ≠ initState := by
  refine ⟨by decide, by decide, by decide⟩

/-- C6 (amended): a file classified as a template (name contains
`.tmpl.yaml` or `.template.yaml`, or content contains a template token)
has every template span replaced by the placeholder before parsing and
never emits a warning, whatever the parse outcome; a parse failure on a
non-template file emits exactly the stderr warning, skips the failing
document and the rest of that file — documents already yielded by the
lazy parser remain categorized — and the scan continues. -/
theorem claim_C6_template_handling :
    ∀ (parse : String → List YamlDoc × Option String) (st : AnalyzerState)
      (filename content : String),
    (is_template filename content = true →
      (process_yaml_file parse st filename content).2 = []) ∧
    (is_template filename content = true →
      (process_yaml_file parse st filename content).1 =
        categorizeDocs st (parse (_preprocess_template content)).1 filename) ∧
    (is_template filename content = false → ∀ docs e,
      parse content = (docs, some e) →
        process_yaml_file parse st filename content =
          (categorizeDocs st docs filename,
           ["Warning: Failed to parse " ++ filename ++ ": " ++ e])) ∧
    (is_template filename content = false → ∀ docs,
      parse content = (docs, none) →
        process_yaml_file parse st filename content =
          (categorizeDocs st docs filename, [])) := by
  intro parse st filename content
  refine ⟨?_, ?_, ?_, ?_⟩
  · intro ht
    unfold process_yaml_file
    rw [ht]
    cases hp : (parse (_preprocess_template content)).2 <;> simp [hp]
  · intro ht
    unfold process_yaml_file
    rw [ht]
    cases hp : (parse (_preprocess_template content)).2 <;> simp [hp]
  · intro ht docs e hp
    unfold process_yaml_file
    rw [ht]
    simp [hp]
  · intro ht docs hp
    unfold process_yaml_file
    rw [ht]
    simp [hp]

/-- Witness for C6: the Role manifest whose only template token is
`\x7b\x7b .Values.name \x7d\x7d` is classified as a template, the token
is replaced by the placeholder before parsing, the parsed document is
categorised with no warning, a parse failure on it is silent, and a
parse failure on a plain file emits the warning. -/
theorem claim_C6_witness :
    is_template "config/role.yaml"
      "kind: Role\nmetadata:\n  name: \x7b\x7b .Values.name \x7d\x7d\n" = true ∧
    _preprocess_template
      "kind: Role\nmetadata:\n  name: \x7b\x7b .Values.name \x7d\x7d\n" =
      "kind: Role\nmetadata:\n  name: placeholder-value\n" ∧
    (process_yaml_file
      (fun s => if s = "kind: Role\nmetadata:\n  name: placeholder-value\n" then
        ([{ kind := some "Role",
            metadata := some { name := some "placeholder-value", namespace_ := none },
            rules := none, roleRef := none, subjects := [],
            specServiceAccountName := none, specAutomountToken := none,
            aggregationSelectors := none }], none)
        else ([], some "invalid template syntax"))
      initState "config/role.yaml"
      "kind: Role\nmetadata:\n  name: \x7b\x7b .Values.name \x7d\x7d\n").1 =
      categorizeDocs initState
        [{ kind := some "Role",
           metadata := some { name := some "placeholder-value", namespace_ := none },
           rules := none, roleRef := none, subjects := [],
           specServiceAccountName := none, specAutomountToken := none,
           aggregationSelectors := none }] "config/role.yaml" ∧
    (process_yaml_file
      (fun s => if s = "kind: Role\nmetadata:\n  name: placeholder-value\n" then
        ([{ kind := some "Role",
            metadata := some { name := some "placeholder-value", namespace_ := none },
            rules := none, roleRef := none, subjects := [],
            specServiceAccountName := none, specAutomountToken := none,
            aggregationSelectors := none }], none)
        else ([], some "invalid template syntax"))
      initState "config/role.yaml"
      "kind: Role\nmetadata:\n  name: \x7b\x7b .Values.name \x7d\x7d\n").2 = [] ∧
    (process_yaml_file (fun _ => ([], some "boom")) initState "config/role.yaml"
      "kind: Role\nmetadata:\n  name: \x7b\x7b .Values.name \x7d\x7d\n").2 = [] ∧
    process_yaml_file (fun _ => ([], some "boom")) initState "plain/role.yaml"
      "kind: Role" =
      (initState, ["Warning: Failed to parse plain/role.yaml: boom"]) := by
  refine ⟨by decide, by decide, ?_, ?_, ?_, ?_⟩
  · exact ((claim_C6_template_handling _ _ _ _).2.1 (by decide)).trans (by decide)
  · exact (claim_C6_template_handling _ _ _ _).1 (by decide)
  · exact (claim_C6_template_handling _ _ _ _).1 (by decide)
  · exact (claim_C6_template_handling _ _ _ _).2.2.1 (by decide) [] "boom" rfl

/-! ## Walker lemmas -/

/-- A pending exception freezes the permission loop. -/
theorem processPerm_frozen {rbs pk sk pf st perm} {e : String}
    (h : st.err = some e) : processPerm rbs pk sk pf st perm = st := by
  simp [processPerm, h]

/-- A pending exception freezes the pod loop. -/
theorem processPod_frozen {rbs saPerms st pk pi} {e : String}
    (h : st.err = some e) : processPod rbs saPerms st pk pi = st := by
  simp [processPod, h]

/-- A pending exception freezes a whole permission fold. -/
theorem foldl_processPerm_frozen {rbs pk sk pf} {e : String} :
    ∀ (perms : List Perm) (st : WalkSt), st.err = some e →
    perms.foldl (processPerm rbs pk sk pf) st = st := by
  intro perms
  induction perms with
  | nil => intro st _; rfl
  | cons q rest ih =>
    intro st h
    simp only [List.foldl_cons, processPerm_frozen h, ih st h]

/-- A pending exception freezes a whole pod fold. -/
theorem foldl_processPod_frozen {rbs saPerms} {e : String} :
    ∀ (pods : List (String × PodInfo)) (st : WalkSt), st.err = some e →
    pods.foldl (fun s p => processPod rbs saPerms s p.1 p.2) st = st := by
  intro pods
  induction pods with
  | nil => intro st _; rfl
  | cons q rest ih =>
    intro st h
    simp only [List.foldl_cons, processPod_frozen h, ih st h]

/-- If a permission fold finishes without a pending exception, it started
without one. -/
theorem foldl_processPerm_err_none {rbs pk sk pf}
    {perms : List Perm} {st : WalkSt}
    (h : (perms.foldl (processPerm rbs pk sk pf) st).err = none) :
    st.err = none := by
  cases herr : st.err with
  | none => rfl
  | some e => rw [foldl_processPerm_frozen perms st herr, herr] at h; cases h

/-- If a pod fold finishes without a pending exception, it started without
one. -/
theorem foldl_processPod_err_none {rbs saPerms}
    {pods : List (String × PodInfo)} {st : WalkSt}
    (h : (pods.foldl (fun s p => processPod rbs saPerms s p.1 p.2) st).err = none) :
    st.err = none := by
  cases herr : st.err with
  | none => rfl
  | some e => rw [foldl_processPod_frozen pods st herr, herr] at h; cases h

/-- One permission step only appends findings. -/
theorem processPerm_mem {rbs pk sk pf st perm} {f : Finding}
    (h : f ∈ st.findings) : f ∈ (processPerm rbs pk sk pf st perm).findings := by
  unfold processPerm
  cases herr : st.err.isSome
  · simp only [Bool.false_eq_true, if_false]
    by_cases h2 : (perm.type_ == some "ClusterRole" &&
        !st.reported.contains perm.binding) = true
    · rw [if_pos h2]
      cases rbHasBindingNamed perm.binding rbs with
      | error e => simp only; split <;> simp [h]
      | ok b =>
        cases b <;> simp only <;> split <;> simp [h]
    · rw [if_neg h2]
      split <;> simp [h]
  · simp [h]

/-- A permission fold only appends findings. -/
theorem foldl_processPerm_mem {rbs pk sk pf} {f : Finding} :
    ∀ (perms : List Perm) (st : WalkSt), f ∈ st.findings →
    f ∈ (perms.foldl (processPerm rbs pk sk pf) st).findings := by
  intro perms
  induction perms with
  | nil => intro st h; exact h
  | cons q rest ih =>
    intro st h
    exact ih _ (processPerm_mem h)

/-- One pod step only appends findings. -/
theorem processPod_mem {rbs saPerms st pk pi} {f : Finding}
    (h : f ∈ st.findings) : f ∈ (processPod rbs saPerms st pk pi).findings := by
  unfold processPod
  cases herr : st.err.isSome
  · simp only [Bool.false_eq_true, if_false]
    split
    · exact foldl_processPerm_mem _ _ h
    · exact h
  · simp [h]

/-- A pod fold only appends findings. -/
theorem foldl_processPod_mem {rbs saPerms} {f : Finding} :
    ∀ (pods : List (String × PodInfo)) (st : WalkSt), f ∈ st.findings →
    f ∈ (pods.foldl (fun s p => processPod rbs saPerms s p.1 p.2) st).findings := by
  intro pods
  induction pods with
  | nil => intro st h; exact h
  | cons q rest ih =>
    intro st h
    exact ih _ (processPod_mem h)

/-- A permission step that ends without pending exception started without
one. -/
theorem processPerm_err_none {rbs pk sk pf st perm}
    (h : (processPerm rbs pk sk pf st perm).err = none) : st.err = none := by
  cases herr : st.err with
  | none => rfl
  | some e => rw [processPerm_frozen herr, herr] at h; cases h

/-- A pod step that ends without pending exception started without one. -/
theorem processPod_err_none {rbs saPerms st pk pi}
    (h : (processPod rbs saPerms st pk pi).err = none) : st.err = none := by
  cases herr : st.err with
  | none => rfl
  | some e => rw [processPod_frozen herr, herr] at h; cases h

/-- A granted `cluster-admin` permission makes the permission step append
the CRITICAL finding. -/
theorem processPerm_crit {rbs pk sk pf st} {perm : Perm}
    (hst : st.err = none) (hrole : perm.role = some "cluster-admin") :
    clusterAdminFinding pk sk pf ∈ (processPerm rbs pk sk pf st perm).findings := by
  unfold processPerm
  have hsome : st.err.isSome = false := by rw [hst]; rfl
  rw [hsome]
  have hbeq : (perm.role == some "cluster-admin") = true := by simp [hrole]
  simp only [Bool.false_eq_true, if_false, hbeq, if_true]
  have hcrit : clusterAdminFinding pk sk pf ∈
      st.findings ++ [clusterAdminFinding pk sk pf] := by simp
  by_cases h2 : (perm.type_ == some "ClusterRole" &&
      !st.reported.contains perm.binding) = true
  · rw [if_pos h2]
    cases rbHasBindingNamed perm.binding rbs with
    | error e => simp
    | ok b => cases b <;> simp
  · rw [if_neg h2]
    simp

/-- If a permission fold ends without exception and contains a
`cluster-admin` grant, the CRITICAL finding is in its output. -/
theorem walkPerms_crit {rbs pk sk pf} {perm : Perm}
    (hrole : perm.role = some "cluster-admin") :
    ∀ (perms : List Perm) (st : WalkSt),
    (perms.foldl (processPerm rbs pk sk pf) st).err = none →
    perm ∈ perms →
    clusterAdminFinding pk sk pf ∈
      (perms.foldl (processPerm rbs pk sk pf) st).findings := by
  intro perms
  induction perms with
  | nil => intro st _ hmem; cases hmem
  | cons q rest ih =>
    intro st herr hmem
    rw [List.foldl_cons] at herr ⊢
    rcases List.mem_cons.mp hmem with rfl | hmem2
    · have h2 : (processPerm rbs pk sk pf st perm).err = none :=
        foldl_processPerm_err_none herr
      have h3 : st.err = none := processPerm_err_none h2
      exact foldl_processPerm_mem _ _ (processPerm_crit h3 hrole)
    · exact ih _ herr hmem2

/-- A permission found by `lookupPerms` implies key presence. -/
theorem lookupPerms_saHasKey {saPerms : List (String × Perm)} {key : String}
    {perm : Perm} (h : perm ∈ lookupPerms saPerms key) :
    saHasKey saPerms key = true := by
  unfold lookupPerms at h
  obtain ⟨p, hp, _⟩ := List.mem_map.mp h
  have hf := List.mem_filter.mp hp
  exact List.any_eq_true.mpr ⟨p, hf.1, hf.2⟩

/-- Pod-level emission of the CRITICAL finding. -/
theorem walkPods_crit {rbs : List Binding} {saPerms : List (String × Perm)}
    {pk : String} {pi : PodInfo} {perm : Perm}
    (hrole : perm.role = some "cluster-admin")
    (hlookup : perm ∈ lookupPerms saPerms
      (splitHeadSlash pk ++ "/" ++ pi.serviceAccount)) :
    ∀ (pods : List (String × PodInfo)) (st : WalkSt),
    (pods.foldl (fun s p => processPod rbs saPerms s p.1 p.2) st).err = none →
    (pk, pi) ∈ pods →
    clusterAdminFinding pk
      (splitHeadSlash pk ++ "/" ++ pi.serviceAccount) pi.file ∈
      (pods.foldl (fun s p => processPod rbs saPerms s p.1 p.2) st).findings := by
  intro pods
  induction pods with
  | nil => intro st _ hmem; cases hmem
  | cons q rest ih =>
    intro st herr hmem
    rw [List.foldl_cons] at herr ⊢
    rcases List.mem_cons.mp hmem with heq | hmem2
    · obtain ⟨hpk, hpi⟩ : pk = q.1 ∧ pi = q.2 :=
        ⟨congrArg Prod.fst heq, congrArg Prod.snd heq⟩
      subst hpk hpi
      have h2 : (processPod rbs saPerms st q.1 q.2).err = none :=
        foldl_processPod_err_none herr
      have h3 : st.err = none := processPod_err_none h2
      apply foldl_processPod_mem
      unfold processPod
      have hsome : st.err.isSome = false := by rw [h3]; rfl
      rw [hsome]
      simp only [Bool.false_eq_true, if_false]
      rw [if_pos (lookupPerms_saHasKey hlookup)]
      apply walkPerms_crit hrole _ _ _ hlookup
      have h4 := h2
      unfold processPod at h4
      rw [hsome] at h4
      simp only [Bool.false_eq_true, if_false] at h4
      rw [if_pos (lookupPerms_saHasKey hlookup)] at h4
      exact h4
    · exact ih _ herr hmem2

/-- C4: whenever the privilege-chain walker completes without an uncaught
exception, every Pod whose resolved ServiceAccount key has a granted role
named exactly `cluster-admin` yields the CRITICAL finding whose title
names the pod as `namespace/name` together with `cluster-admin`. -/
theorem claim_C4_cluster_admin_critical :
    ∀ (crbs rbs : List Binding) (pods : List (String × PodInfo))
      (saPerms : List (String × Perm)) (pk : String) (pi : PodInfo) (perm : Perm),
    buildSaPermissions crbs rbs = .ok saPerms →
    (analyze_privilege_chains crbs rbs pods).2 = none →
    (pk, pi) ∈ pods →
    perm ∈ lookupPerms saPerms
      (splitHeadSlash pk ++ "/" ++ pi.serviceAccount) →
    perm.role = some "cluster-admin" →
    clusterAdminFinding pk
      (splitHeadSlash pk ++ "/" ++ pi.serviceAccount) pi.file ∈
      (analyze_privilege_chains crbs rbs pods).1 := by
  intro crbs rbs pods saPerms pk pi perm hbuild herr hmem hlookup hrole
  unfold analyze_privilege_chains at herr ⊢
  rw [hbuild] at herr ⊢
  exact walkPods_crit hrole hlookup pods _ herr hmem
/-- Witness for C4: a Pod `prod/web-pod` with serviceAccountName
`admin-sa`, where `admin-sa` is bound via ClusterRoleBinding to
`cluster-admin`, yields exactly one finding — CRITICAL, with a title
containing both `prod/web-pod` and `cluster-admin`. -/
theorem claim_C4_witness :
    (analyze_privilege_chains
      [{ doc := { metadata := some { name := some "crb1", namespace_ := none },
                  roleRef := some { kind := some "ClusterRole",
                                    name := some "cluster-admin" },
                  subjects := [{ kind := some "ServiceAccount",
                                 namespace_ := some "prod",
                                 name := some "admin-sa" }] },
         file := "crb.yaml" }] []
      [("prod/web-pod", { serviceAccount := "admin-sa", file := "pod.yaml",
                          automountToken := true })]).1 =
      [clusterAdminFinding "prod/web-pod" "prod/admin-sa" "pod.yaml"] ∧
    clusterAdminFinding "prod/web-pod" "prod/admin-sa" "pod.yaml" ∈
      (analyze_privilege_chains
        [{ doc := { metadata := some { name := some "crb1", namespace_ := none },
                    roleRef := some { kind := some "ClusterRole",
                                      name := some "cluster-admin" },
                    subjects := [{ kind := some "ServiceAccount",
                                   namespace_ := some "prod",
                                   name := some "admin-sa" }] },
           file := "crb.yaml" }] []
        [("prod/web-pod", { serviceAccount := "admin-sa", file := "pod.yaml",
                            automountToken := true })]).1 ∧
    (clusterAdminFinding "prod/web-pod" "prod/admin-sa" "pod.yaml").severity =
      "CRITICAL" ∧
    strContains (clusterAdminFinding "prod/web-pod" "prod/admin-sa"
      "pod.yaml").title "prod/web-pod" = true ∧
    strContains (clusterAdminFinding "prod/web-pod" "prod/admin-sa"
      "pod.yaml").title "cluster-admin" = true := by
  refine ⟨by decide, ?_, rfl, by decide, by decide⟩
  have happ := claim_C4_cluster_admin_critical
    [{ doc := { metadata := some { name := some "crb1", namespace_ := none },
                roleRef := some { kind := some "ClusterRole",
                                  name := some "cluster-admin" },
                subjects := [{ kind := some "ServiceAccount",
                               namespace_ := some "prod",
                               name := some "admin-sa" }] },
       file := "crb.yaml" }] []
    [("prod/web-pod", { serviceAccount := "admin-sa", file := "pod.yaml",
                        automountToken := true })]
    [("prod/admin-sa", { type_ := some "ClusterRole",
                         role := some "cluster-admin", binding := "crb1",
                         file := "crb.yaml" })]
    "prod/web-pod"
    { serviceAccount := "admin-sa", file := "pod.yaml", automountToken := true }
    { type_ := some "ClusterRole", role := some "cluster-admin",
      binding := "crb1", file := "crb.yaml" }
    rfl rfl (by simp) (by decide) rfl
  exact happ

/-- The warning title determines the binding name. -/
theorem warnTitle_inj {a b : String} (h : warnTitle a = warnTitle b) : a = b := by
  unfold warnTitle at h
  have hd := congrArg String.data h
  simp only [String.data_append] at hd
  exact String.ext (List.append_cancel_left (List.append_cancel_right hd))

/-- Boolean form of `warnTitle` injectivity. -/
theorem warnTitle_beq (x y : String) :
    (warnTitle x == warnTitle y) = (x == y) := by
  by_cases h : x = y
  · subst h; simp
  · have hne : warnTitle x ≠ warnTitle y := fun hc => h (warnTitle_inj hc)
    simp [h, hne]

/-- The deduplicated RoleBinding→ClusterRole warning for one binding name. -/
def isRBWarningFor (name : String) (f : Finding) : Bool :=
  f.severity == "WARNING" && f.title == warnTitle name

/-- The CRITICAL cluster-admin finding never matches the warning shape. -/
theorem isRBWarningFor_crit (name pk sk pf : String) :
    isRBWarningFor name (clusterAdminFinding pk sk pf) = false := by
  have hsev : (("CRITICAL" : String) == "WARNING") = false := by decide
  simp [isRBWarningFor, clusterAdminFinding, hsev]

/-- The warning finding matches the shape for `name` iff it was emitted
for that binding name. -/
theorem isRBWarningFor_warn (name : String) (perm : Perm) :
    isRBWarningFor name (rbClusterRoleWarning perm) = (perm.binding == name) := by
  have hsev : (("WARNING" : String) == "WARNING") = true := by decide
  simp [isRBWarningFor, rbClusterRoleWarning, hsev, warnTitle_beq]

/-- The walker invariant for one binding name: at most one matching
warning so far, and none unless the name is in `reported_bindings`. -/
def WalkInv (name : String) (st : WalkSt) : Prop :=
  st.findings.countP (isRBWarningFor name) ≤ 1 ∧
  (st.reported.contains name = false →
    st.findings.countP (isRBWarningFor name) = 0)

/-- The findings after the optional CRITICAL append have the same warning
count for any binding name. -/
theorem fs1_countP (name : String) (st : WalkSt) (pk sk pf : String)
    (perm : Perm) :
    (if (perm.role == some "cluster-admin") = true
      then st.findings ++ [clusterAdminFinding pk sk pf]
      else st.findings).countP (isRBWarningFor name) =
    st.findings.countP (isRBWarningFor name) := by
  split
  · rw [List.countP_append]
    simp [isRBWarningFor_crit]
  · rfl

/-- One permission step preserves the walker invariant. -/
theorem processPerm_inv (name : String) {rbs : List Binding}
    {pk sk pf : String} {perm : Perm} {st : WalkSt}
    (h : WalkInv name st) : WalkInv name (processPerm rbs pk sk pf st perm) := by
  unfold processPerm
  by_cases he : st.err.isSome = true
  · rw [if_pos he]; exact h
  · rw [if_neg he]
    dsimp only
    split
    next hcond =>
      have hcontains : st.reported.contains perm.binding = false := by
        have h2 := (Bool.and_eq_true _ _).mp hcond
        simpa using h2.2
      split
      next e heq =>
        exact ⟨by rw [fs1_countP]; exact h.1,
               fun hc => by rw [fs1_countP]; exact h.2 hc⟩
      next heq =>
        refine ⟨?_, fun hc => ?_⟩
        · show ((if (perm.role == some "cluster-admin") = true
              then st.findings ++ [clusterAdminFinding pk sk pf]
              else st.findings) ++ [rbClusterRoleWarning perm]).countP
              (isRBWarningFor name) ≤ 1
          rw [List.countP_append, fs1_countP]
          by_cases hbn : perm.binding = name
          · have hz : st.findings.countP (isRBWarningFor name) = 0 :=
              h.2 (hbn ▸ hcontains)
            simp [hz, isRBWarningFor_warn, hbn]
          · have hbn2 : (perm.binding == name) = false := by simp [hbn]
            simpa [isRBWarningFor_warn, hbn2] using h.1
        · show ((if (perm.role == some "cluster-admin") = true
              then st.findings ++ [clusterAdminFinding pk sk pf]
              else st.findings) ++ [rbClusterRoleWarning perm]).countP
              (isRBWarningFor name) = 0
          have hrep : (st.reported ++ [perm.binding]).contains name = false := hc
          have hconj : ¬ name ∈ st.reported ∧ ¬ name = perm.binding := by
            simpa [not_or] using hrep
          have hbn : (perm.binding == name) = false := by
            have hne : perm.binding ≠ name := fun hx => hconj.2 hx.symm
            simp [hne]
          have hrep0 : st.reported.contains name = false := by
            simpa using hconj.1
          rw [List.countP_append, fs1_countP, h.2 hrep0]
          simp [isRBWarningFor_warn, hbn]
      next heq =>
        exact ⟨by rw [fs1_countP]; exact h.1,
               fun hc => by rw [fs1_countP]; exact h.2 hc⟩
    next hcond =>
      exact ⟨by rw [fs1_countP]; exact h.1,
             fun hc => by rw [fs1_countP]; exact h.2 hc⟩

/-- A permission fold preserves the walker invariant. -/
theorem foldl_processPerm_inv (name : String) {rbs : List Binding}
    {pk sk pf : String} :
    ∀ (perms : List Perm) (st : WalkSt), WalkInv name st →
    WalkInv name (perms.foldl (processPerm rbs pk sk pf) st) := by
  intro perms
  induction perms with
  | nil => intro st h; exact h
  | cons q rest ih => intro st h; exact ih _ (processPerm_inv name h)

/-- One pod step preserves the walker invariant. -/
theorem processPod_inv (name : String) {rbs : List Binding}
    {saPerms : List (String × Perm)} {st : WalkSt} {pk : String}
    {pi : PodInfo} (h : WalkInv name st) :
    WalkInv name (processPod rbs saPerms st pk pi) := by
  unfold processPod
  by_cases he : st.err.isSome = true
  · rw [if_pos he]; exact h
  · rw [if_neg he]
    dsimp only
    split
    · exact foldl_processPerm_inv name _ _ h
    · exact h

/-- A pod fold preserves the walker invariant. -/
theorem foldl_processPod_inv (name : String) {rbs : List Binding}
    {saPerms : List (String × Perm)} :
    ∀ (pods : List (String × PodInfo)) (st : WalkSt), WalkInv name st →
    WalkInv name (pods.foldl
      (fun s p => processPod rbs saPerms s p.1 p.2) st) := by
  intro pods
  induction pods with
  | nil => intro st h; exact h
  | cons q rest ih => intro st h; exact ih _ (processPod_inv name h)

/-- C7: over one whole run of the privilege-chain walker, the WARNING
flagging a RoleBinding that references a ClusterRole is emitted at most
once per binding name, however many subjects or pods are involved. -/
theorem claim_C7_warning_dedup :
    ∀ (crbs rbs : List Binding) (pods : List (String × PodInfo))
      (bname : String),
    ((analyze_privilege_chains crbs rbs pods).1.countP
      (isRBWarningFor bname)) ≤ 1 := by
  intro crbs rbs pods bname
  unfold analyze_privilege_chains
  cases buildSaPermissions crbs rbs with
  | error e => simp
  | ok saPerms =>
    have hinit : WalkInv bname { findings := [], reported := [], err := none } :=
      ⟨by simp, fun _ => by simp⟩
    exact (foldl_processPod_inv bname pods _ hinit).1

/-- Non-vacuity demo for the walker dedup: one RoleBinding referencing a
ClusterRole, granted to a ServiceAccount used by two Pods, produces the
WARNING exactly once. -/
theorem walker_dedup_demo :
    ((analyze_privilege_chains []
      [{ doc := { metadata := some { name := some "rb1", namespace_ := some "ns1" },
                  roleRef := some { kind := some "ClusterRole", name := some "viewer" },
                  subjects := [{ kind := some "ServiceAccount",
                                 namespace_ := some "ns1", name := some "sa" }] },
         file := "rb.yaml" }]
      [("ns1/p1", { serviceAccount := "sa", file := "p1.yaml", automountToken := true }),
       ("ns1/p2", { serviceAccount := "sa", file := "p2.yaml", automountToken := true })]).1.countP
      (isRBWarningFor "rb1")) = 1 := by decide

/-! ## C8: exception safety of the full analysis -/

/-- A binding document carrying `metadata` with a `name`, the
well-formedness the analysis needs to avoid `KeyError`. -/
def WFBinding (b : Binding) : Prop :=
  ∃ m n, b.doc.metadata = some m ∧ m.name = some n

/-- Lemma: `metadataName` succeeds on a well-formed binding. -/
theorem metadataName_ok {b : Binding} (h : WFBinding b) :
    ∃ nm, metadataName b.doc = .ok nm := by
  obtain ⟨m, n, hm, hn⟩ := h
  exact ⟨n, by simp [metadataName, hm, hn]⟩

/-- Lemma: `collectBindingNames` succeeds on well-formed bindings. -/
theorem collectBindingNames_ok {p : BindingDoc → Bool} :
    ∀ {l : List Binding}, (∀ b ∈ l, WFBinding b) →
    ∃ ns, collectBindingNames p l = .ok ns := by
  intro l
  induction l with
  | nil => intro _; exact ⟨[], rfl⟩
  | cons b rest ih =>
    intro hwf
    obtain ⟨ns, hns⟩ := ih (fun x hx => hwf x (List.mem_cons_of_mem _ hx))
    by_cases hp : p b.doc
    · obtain ⟨nm, hnm⟩ := metadataName_ok (hwf b (List.mem_cons_self _ _))
      exact ⟨nm :: ns, by simp [collectBindingNames, hp, hnm, hns]⟩
    · exact ⟨ns, by simp [collectBindingNames, hp, hns]⟩

/-- The binding-scope query succeeds on well-formed bindings. -/
theorem get_scope_ok {crbs rbs : List Binding} {name : String}
    (hc : ∀ b ∈ crbs, WFBinding b) (hr : ∀ b ∈ rbs, WFBinding b) :
    ∃ scope, get_clusterrole_binding_scope crbs rbs name = .ok scope := by
  obtain ⟨cb, hcb⟩ := collectBindingNames_ok
    (p := fun d => roleRefName d == some name) hc
  obtain ⟨rbl, hrbl⟩ := collectBindingNames_ok
    (p := fun d => roleRefName d == some name &&
      roleRefKind d == some "ClusterRole") hr
  exact ⟨_, by unfold get_clusterrole_binding_scope; rw [hcb, hrbl]⟩

/-- The dangerous-permission loop raises no exception over well-formed
bindings and roles whose `rules` value is not null. -/
theorem dangerousLoop_err_none {crbs rbs : List Binding}
    (hc : ∀ b ∈ crbs, WFBinding b) (hr : ∀ b ∈ rbs, WFBinding b) :
    ∀ roles, (∀ nrd ∈ roles, (nrd : String × RoleData).2.rules ≠ none) →
    (dangerousLoop crbs rbs roles).2 = none := by
  intro roles
  induction roles with
  | nil => intro _; rfl
  | cons nr rest ih =>
    intro hrules
    obtain ⟨rname, rdata⟩ := nr
    obtain ⟨rl, hrl⟩ : ∃ rl, rdata.rules = some rl :=
      Option.ne_none_iff_exists'.mp (hrules (rname, rdata) (List.mem_cons_self _ _))
    have ih2 := ih (fun x hx => hrules x (List.mem_cons_of_mem _ hx))
    unfold dangerousLoop
    rw [hrl]
    dsimp only
    by_cases hq : (findingsForRole (scanRules rl)).isEmpty = true
    · rw [if_pos hq]; exact ih2
    · rw [if_neg hq]
      obtain ⟨scope, hscope⟩ := @get_scope_ok _ _ rname hc hr
      rw [hscope]
      dsimp only
      exact ih2

/-- The ClusterRoleBinding subject loop succeeds on a well-formed
binding. -/
theorem crbSubjectPerms_ok {b : Binding} (h : WFBinding b) :
    ∀ subjects, ∃ ps, crbSubjectPerms b subjects = .ok ps := by
  obtain ⟨nm, hnm⟩ := metadataName_ok h
  intro subjects
  induction subjects with
  | nil => exact ⟨[], rfl⟩
  | cons x rest ih =>
    obtain ⟨ps, hps⟩ := ih
    by_cases hk : (x.kind == some "ServiceAccount") = true
    · refine ⟨(x.namespace_.getD "default" ++ "/" ++ pyStr x.name,
        { type_ := some "ClusterRole", role := roleRefName b.doc,
          binding := nm, file := b.file }) :: ps, ?_⟩
      simp [crbSubjectPerms, hk, hnm, hps]
    · exact ⟨ps, by simp [crbSubjectPerms, hk, hps]⟩

/-- The RoleBinding subject loop succeeds on a well-formed binding. -/
theorem rbSubjectPerms_ok {b : Binding} (h : WFBinding b) :
    ∀ subjects, ∃ ps, rbSubjectPerms b subjects = .ok ps := by
  obtain ⟨m, n, hm, hn⟩ := h
  intro subjects
  induction subjects with
  | nil => exact ⟨[], rfl⟩
  | cons x rest ih =>
    obtain ⟨ps, hps⟩ := ih
    by_cases hk : (x.kind == some "ServiceAccount") = true
    · refine ⟨(x.namespace_.getD (m.namespace_.getD "default") ++ "/" ++
        pyStr x.name,
        { type_ := roleRefKind b.doc, role := roleRefName b.doc,
          binding := n, file := b.file }) :: ps, ?_⟩
      simp [rbSubjectPerms, hk, hm, hn, hps]
    · exact ⟨ps, by simp [rbSubjectPerms, hk, hps]⟩

/-- The binding loop succeeds when each binding's subject loop does. -/
theorem bindingPerms_ok
    {one : Binding → List Subject → Except String (List (String × Perm))} :
    ∀ {l : List Binding},
    (∀ b ∈ l, ∃ ps, one b b.doc.subjects = .ok ps) →
    ∃ ps, bindingPerms one l = .ok ps := by
  intro l
  induction l with
  | nil => intro _; exact ⟨[], rfl⟩
  | cons b rest ih =>
    intro hok
    obtain ⟨ps, hps⟩ := hok b (List.mem_cons_self _ _)
    obtain ⟨ps', hps'⟩ := ih (fun x hx => hok x (List.mem_cons_of_mem _ hx))
    exact ⟨ps ++ ps', by simp [bindingPerms, hps, hps']⟩

/-- Lemma: `sa_permissions` is built without exception over well-formed
bindings. -/
theorem buildSaPermissions_ok {crbs rbs : List Binding}
    (hc : ∀ b ∈ crbs, WFBinding b) (hr : ∀ b ∈ rbs, WFBinding b) :
    ∃ saPerms, buildSaPermissions crbs rbs = .ok saPerms := by
  obtain ⟨ps, hps⟩ := bindingPerms_ok
    (fun b hb => crbSubjectPerms_ok (hc b hb) b.doc.subjects)
  obtain ⟨ps', hps'⟩ := bindingPerms_ok
    (fun b hb => rbSubjectPerms_ok (hr b hb) b.doc.subjects)
  exact ⟨ps ++ ps', by simp [buildSaPermissions, hps, hps']⟩

/-- The lazy `any` over RoleBindings succeeds on well-formed bindings. -/
theorem rbHasBindingNamed_ok {name : String} :
    ∀ {rbs : List Binding}, (∀ b ∈ rbs, WFBinding b) →
    ∃ r, rbHasBindingNamed name rbs = .ok r := by
  intro rbs
  induction rbs with
  | nil => intro _; exact ⟨false, rfl⟩
  | cons b rest ih =>
    intro hwf
    obtain ⟨nm, hnm⟩ := metadataName_ok (hwf b (List.mem_cons_self _ _))
    obtain ⟨r, hr⟩ := ih (fun x hx => hwf x (List.mem_cons_of_mem _ hx))
    by_cases he : nm = name
    · exact ⟨true, by simp [rbHasBindingNamed, hnm, he]⟩
    · exact ⟨r, by simp [rbHasBindingNamed, hnm, he, hr]⟩

/-- A permission step keeps the error slot empty over well-formed
RoleBindings. -/
theorem processPerm_err_keep {rbs : List Binding} {pk sk pf : String}
    {perm : Perm} {st : WalkSt} (hwf : ∀ b ∈ rbs, WFBinding b)
    (hst : st.err = none) : (processPerm rbs pk sk pf st perm).err = none := by
  unfold processPerm
  have hsome : st.err.isSome = false := by rw [hst]; rfl
  rw [hsome]
  simp only [Bool.false_eq_true, if_false]
  split
  · obtain ⟨r, hr⟩ := @rbHasBindingNamed_ok perm.binding _ hwf
    rw [hr]
    cases r <;> rfl
  · rfl

/-- A permission fold keeps the error slot empty over well-formed
RoleBindings. -/
theorem foldl_processPerm_err_keep {rbs : List Binding} {pk sk pf : String}
    (hwf : ∀ b ∈ rbs, WFBinding b) :
    ∀ (perms : List Perm) (st : WalkSt), st.err = none →
    (perms.foldl (processPerm rbs pk sk pf) st).err = none := by
  intro perms
  induction perms with
  | nil => intro st h; exact h
  | cons q rest ih =>
    intro st h
    exact ih _ (processPerm_err_keep hwf h)

/-- A pod step keeps the error slot empty over well-formed RoleBindings. -/
theorem processPod_err_keep {rbs : List Binding}
    {saPerms : List (String × Perm)} {st : WalkSt} {pk : String}
    {pi : PodInfo} (hwf : ∀ b ∈ rbs, WFBinding b) (hst : st.err = none) :
    (processPod rbs saPerms st pk pi).err = none := by
  unfold processPod
  have hsome : st.err.isSome = false := by rw [hst]; rfl
  rw [hsome]
  simp only [Bool.false_eq_true, if_false]
  split
  · exact foldl_processPerm_err_keep hwf _ _ hst
  · exact hst

/-- A pod fold keeps the error slot empty over well-formed RoleBindings. -/
theorem foldl_processPod_err_keep {rbs : List Binding}
    {saPerms : List (String × Perm)} (hwf : ∀ b ∈ rbs, WFBinding b) :
    ∀ (pods : List (String × PodInfo)) (st : WalkSt), st.err = none →
    (pods.foldl (fun s p => processPod rbs saPerms s p.1 p.2) st).err = none := by
  intro pods
  induction pods with
  | nil => intro st h; exact h
  | cons q rest ih =>
    intro st h
    exact ih _ (processPod_err_keep hwf h)

/-- The privilege-chain walk raises no exception over well-formed
bindings. -/
theorem analyze_privilege_chains_err_none {crbs rbs : List Binding}
    {pods : List (String × PodInfo)}
    (hc : ∀ b ∈ crbs, WFBinding b) (hr : ∀ b ∈ rbs, WFBinding b) :
    (analyze_privilege_chains crbs rbs pods).2 = none := by
  obtain ⟨saPerms, hsp⟩ := buildSaPermissions_ok hc hr
  unfold analyze_privilege_chains
  rw [hsp]
  dsimp only
  exact foldl_processPod_err_keep hr pods _ rfl

/-- C8 counterexample: two parseable manifests, each of which loads
without any warning yet aborts the analysis with an uncaught exception.
First, a ClusterRoleBinding with a ServiceAccount subject but no
`metadata` mapping raises `KeyError` while building the ServiceAccount
permission map.  Second, a ClusterRole whose manifest has a
present-but-null `rules:` key — with no bindings loaded at all — raises
`TypeError` when the rule loop iterates `None`.  The claim that the full
analysis completes for every document content is therefore false. -/
theorem claim_C8_counterexample :
    (run_analysis (categorizeDocs initState
      [{ kind := some "ClusterRoleBinding", metadata := none, rules := none,
         roleRef := some { kind := some "ClusterRole", name := some "powerful" },
         subjects := [{ kind := some "ServiceAccount",
                        namespace_ := some "prod", name := some "sa1" }],
         specServiceAccountName := none, specAutomountToken := none,
         aggregationSelectors := none }] "manifests/crb.yaml")).2 =
      some "KeyError: 'metadata'" ∧
    (run_analysis (categorizeDocs initState
      [{ kind := some "ClusterRole",
         metadata := some { name := some "nullrules", namespace_ := none },
         rules := some none, roleRef := none, subjects := [],
         specServiceAccountName := none, specAutomountToken := none,
         aggregationSelectors := none }] "manifests/cr.yaml")).2 =
      some "TypeError: NoneType object is not iterable" := by
  refine ⟨by decide, by decide⟩

/-- C8 (amended): within the shape-conformant fragment of manifests the
typed embedding represents (fields, when present, have the types the
analyzer expects), the analysis raises no uncaught exception provided
every loaded (Cluster)RoleBinding document carries `metadata` with a
`name` and no loaded ClusterRole has a present-but-null `rules:` value.
Both provisos are necessary (`claim_C8_counterexample`), and the loader
itself never aborts on an individual file. -/
theorem claim_C8_amended_no_exception :
    ∀ st : AnalyzerState,
    (∀ b ∈ st.cluster_role_bindings ++ st.role_bindings, WFBinding b) →
    (∀ nrd ∈ st.cluster_roles, (nrd : String × RoleData).2.rules ≠ none) →
    (run_analysis st).2 = none := by
  intro st hwf hrules
  have hc : ∀ b ∈ st.cluster_role_bindings, WFBinding b :=
    fun b hb => hwf b (List.mem_append_left _ hb)
  have hr : ∀ b ∈ st.role_bindings, WFBinding b :=
    fun b hb => hwf b (List.mem_append_right _ hb)
  unfold run_analysis
  dsimp only
  have h1 : (analyze_dangerous_permissions st.cluster_role_bindings
      st.role_bindings st.cluster_roles).2 = none :=
    dangerousLoop_err_none hc hr st.cluster_roles hrules
  rw [h1]
  dsimp only
  exact analyze_privilege_chains_err_none hc hr

/-- Witness for the amended C8: a state with a well-formed
ClusterRoleBinding, a qualifying ClusterRole and a Pod completes with no
pending exception. -/
theorem claim_C8_witness :
    (run_analysis
      { cluster_roles := [("cr1", { rules := some [{ resources := ["*"], verbs := ["get"] }],
                                    file := "cr.yaml", aggregationSelectors := none })],
        roles := [],
        cluster_role_bindings :=
          [{ doc := { metadata := some { name := some "crb1", namespace_ := none },
                      roleRef := some { kind := some "ClusterRole", name := some "cr1" },
                      subjects := [{ kind := some "ServiceAccount",
                                     namespace_ := some "prod", name := some "sa1" }] },
             file := "crb.yaml" }],
        role_bindings := [], service_accounts := [],
        pods := [("prod/p1", { serviceAccount := "sa1", file := "pod.yaml",
                               automountToken := true })] }).2 = none := by
  apply claim_C8_amended_no_exception
  · intro b hb
    simp only [List.append_nil, List.mem_singleton] at hb
    subst hb
    exact ⟨_, "crb1", rfl, rfl⟩
  · intro nrd hnrd
    simp only [List.mem_singleton] at hnrd
    subst hnrd
    simp

end RBAC
